import Mathlib

/-!
# RP2040 USB CDC transport (`src/rp2040/usbserial.c`)

A shallow embedding of the driver.  The dual-port packet RAM (`usb_dpram`) is one
flat, byte-addressed memory: the buffer-control words and the packet buffers live
in the same address space, so that a packet copy and a control-word store can be
checked for aliasing.  Memory-mapped registers are fields of the state.  32-bit
words are natural numbers; every store to memory reduces the value modulo `2^32`.
-/

namespace Usbserial

/-! ## Constants of the headers the driver includes -/

/-- Source line 28: the size of one packet buffer, the maximum packet size. -/
def DPBUF_SIZE : Nat := 64

/-- Modelled from the spec: the buffer-control bit FULL ("buffer currently holds
unconsumed data"); the value is the one of the RP2040 header `hardware/structs/usb.h`,
which is outside this source file. -/
def USB_BUF_CTRL_FULL : Nat := 0x00008000
/-- Modelled from the spec: the LAST bit ("single-buffer-segment marker"), header value. -/
def USB_BUF_CTRL_LAST : Nat := 0x00004000
/-- Modelled from the spec: the DATA-TOGGLE bit (DATA1 PID), header value. -/
def USB_BUF_CTRL_DATA1_PID : Nat := 0x00002000
/-- Modelled from the spec: the STALL bit ("endpoint halted"), header value. -/
def USB_BUF_CTRL_STALL : Nat := 0x00000800
/-- Modelled from the spec: the AVAILABLE bit ("software has armed the buffer for
hardware use"), header value. -/
def USB_BUF_CTRL_AVAIL : Nat := 0x00000400
/-- Modelled from the spec: the LENGTH field mask (payload byte count, low 10 bits),
header value. -/
def USB_BUF_CTRL_LEN_MASK : Nat := 0x000003FF

/-- Modelled from the spec: setup-request bit of the raw interrupt register, value of
the RP2040 header `hardware/regs/usb.h` (outside this source file). -/
def USB_INTR_SETUP_REQ_BITS : Nat := 0x00010000
/-- Modelled from the spec: setup-request bit of the masked interrupt status. -/
def USB_INTS_SETUP_REQ_BITS : Nat := 0x00010000
/-- Modelled from the spec: buffer-status bit of the masked interrupt status. -/
def USB_INTS_BUFF_STATUS_BITS : Nat := 0x00000010
/-- Modelled from the spec: bus-reset bit of the masked interrupt status. -/
def USB_INTS_BUS_RESET_BITS : Nat := 0x00001000
/-- Modelled from the spec: setup-request bit of the interrupt enable register. -/
def USB_INTE_SETUP_REQ_BITS : Nat := 0x00010000
/-- Modelled from the spec: buffer-status bit of the interrupt enable register. -/
def USB_INTE_BUFF_STATUS_BITS : Nat := 0x00000010
/-- Modelled from the spec: bus-reset bit of the interrupt enable register. -/
def USB_INTE_BUS_RESET_BITS : Nat := 0x00001000
/-- Modelled from the spec: the "connected" bit of the SIE status register. -/
def USB_SIE_STATUS_CONNECTED_BITS : Nat := 0x00010000
/-- Modelled from the spec: the line-state field of the SIE status register. -/
def USB_SIE_STATUS_LINE_STATE_BITS : Nat := 0x0000000c
/-- Modelled from the spec: the setup-received flag of the SIE status register. -/
def USB_SIE_STATUS_SETUP_REC_BITS : Nat := 0x00020000
/-- Modelled from the spec: the bus-reset flag of the SIE status register. -/
def USB_SIE_STATUS_BUS_RESET_BITS : Nat := 0x00080000
/-- Modelled from the spec: the stall-arm bits (EP0 IN and EP0 OUT). -/
def USB_EP_STALL_ARM_BITS : Nat := 0x00000003
/-- Modelled from the spec: multiplexer routed to the analog PHY. -/
def USB_USB_MUXING_TO_PHY_BITS : Nat := 0x00000001
/-- Modelled from the spec: multiplexer routed to the digital GPIO pad. -/
def USB_USB_MUXING_TO_DIGITAL_PAD_BITS : Nat := 0x00000004
/-- Modelled from the spec: multiplexer soft-connect bit. -/
def USB_USB_MUXING_SOFTCON_BITS : Nat := 0x00000008
/-- Modelled from the spec: VBUS detect bit of the power register. -/
def USB_USB_PWR_VBUS_DETECT_BITS : Nat := 0x00000004
/-- Modelled from the spec: VBUS detect override-enable bit of the power register. -/
def USB_USB_PWR_VBUS_DETECT_OVERRIDE_EN_BITS : Nat := 0x00000008
/-- Modelled from the spec: controller-enable bit of the main control register. -/
def USB_MAIN_CTRL_CONTROLLER_EN_BITS : Nat := 0x00000001
/-- Modelled from the spec: single-buffer EP0 interrupt bit of the SIE control register. -/
def USB_SIE_CTRL_EP0_INT_1BUF_BITS : Nat := 0x20000000
/-- Modelled from the spec: pull-up enable bit of the SIE control register. -/
def USB_SIE_CTRL_PULLUP_EN_BITS : Nat := 0x00010000
/-- Modelled from the spec: D+ pull-up enable of the direct PHY register. -/
def USB_USBPHY_DIRECT_DP_PULLUP_EN_BITS : Nat := 0x00000004
/-- Modelled from the spec: override-enable of the D+ pull-up ("pull-up override"). -/
def USB_USBPHY_DIRECT_OVERRIDE_DP_PULLUP_EN_OVERRIDE_EN_BITS : Nat := 0x00000004
/-- Modelled from the spec: pad pull-up enable of GPIO15. -/
def PADS_BANK0_GPIO15_PUE_BITS : Nat := 0x00000008
/-- Modelled from the spec: pad pull-down enable of GPIO15. -/
def PADS_BANK0_GPIO15_PDE_BITS : Nat := 0x00000004
/-- Modelled from the spec: position of the output-enable override field of GPIO15. -/
def IO_BANK0_GPIO15_CTRL_OEOVER_LSB : Nat := 12
/-- Modelled from the spec: mask of the output-enable override field of GPIO15. -/
def IO_BANK0_GPIO15_CTRL_OEOVER_BITS : Nat := 0x00003000
/-- Modelled from the spec: position of the function-select field of GPIO15. -/
def IO_BANK0_GPIO15_CTRL_FUNCSEL_LSB : Nat := 0
/-- Modelled from the spec: mask of the function-select field of GPIO15. -/
def IO_BANK0_GPIO15_CTRL_FUNCSEL_BITS : Nat := 0x0000001f
/-- Modelled from the spec: position of the input override field of GPIO15. -/
def IO_BANK0_GPIO15_CTRL_INOVER_LSB : Nat := 16
/-- Modelled from the spec: mask of the input override field of GPIO15. -/
def IO_BANK0_GPIO15_CTRL_INOVER_BITS : Nat := 0x00030000
/-- Modelled from the spec: endpoint-control enable bit. -/
def EP_CTRL_ENABLE_BITS : Nat := 0x80000000
/-- Modelled from the spec: endpoint-control "interrupt per buffer" bit. -/
def EP_CTRL_INTERRUPT_PER_BUFFER : Nat := 0x20000000
/-- Modelled from the spec: position of the endpoint-control transfer type field. -/
def EP_CTRL_BUFFER_TYPE_LSB : Nat := 26
/-- Modelled from the spec: USB transfer type "bulk" (`board/usbstd.h`). -/
def USB_ENDPOINT_XFER_BULK : Nat := 2
/-- Modelled from the spec: USB transfer type "interrupt" (`board/usbstd.h`). -/
def USB_ENDPOINT_XFER_INT : Nat := 3
/-- Modelled from the spec: the fixed index of the ACM notification endpoint
(`board/usb_cdc_ep.h`, outside this source file). -/
def USB_CDC_EP_ACM : Nat := 1
/-- Modelled from the spec: the fixed index of the bulk-OUT endpoint. -/
def USB_CDC_EP_BULK_OUT : Nat := 2
/-- Modelled from the spec: the fixed index of the bulk-IN endpoint. -/
def USB_CDC_EP_BULK_IN : Nat := 3
/-- Modelled from the spec: size of the shared packet memory in bytes. -/
def USB_DPRAM_SIZE : Nat := 4096
/-- Modelled from the spec: number of endpoints, the length of `ep_buf_ctrl`. -/
def USB_NUM_ENDPOINTS : Nat := 16
/-- Modelled from the spec: silicon-revision field of the chip id register. -/
def SYSINFO_CHIP_ID_REVISION_BITS : Nat := 0xf0000000
/-- Modelled from the spec: position of the silicon-revision field. -/
def SYSINFO_CHIP_ID_REVISION_LSB : Nat := 28
/-- Modelled from the spec: clock/reset bit of the USB controller ("domain-id"). -/
def RESETS_RESET_USBCTRL_BITS : Nat := 0x01000000
/-- Modelled from the spec: clock/reset bit of the system-information block. -/
def RESETS_RESET_SYSINFO_BITS : Nat := 0x00080000

/-! ## Shared packet memory -/

/-- One byte of memory. -/
abbrev Byte := Fin 256

/-- Byte-addressed memory, addressed by offset from its base pointer. -/
abbrev Mem := Nat → Byte

/-- Low byte of a number. -/
def byteOf (v : Nat) : Byte := ⟨v % 256, Nat.mod_lt v (by decide)⟩

/-- Little-endian 32-bit load at byte offset `a`. -/
def read32 (m : Mem) (a : Nat) : Nat :=
  (m a).val + 256 * (m (a + 1)).val + 65536 * (m (a + 2)).val
    + 16777216 * (m (a + 3)).val

/-- Little-endian 32-bit store of `v` (reduced modulo `2^32`) at byte offset `a`. -/
def write32 (m : Mem) (a v : Nat) : Mem := fun x =>
  if x = a then byteOf v
  else if x = a + 1 then byteOf (v / 256)
  else if x = a + 2 then byteOf (v / 65536)
  else if x = a + 3 then byteOf (v / 16777216)
  else m x

/-- The call `memcpy(usb_dpram + off, data, len)`: byte `i` of `data` lands at `off + i`. -/
def memcpy_to (m : Mem) (off : Nat) (data : Mem) (len : Nat) : Mem := fun x =>
  if off ≤ x ∧ x < off + len then data (x - off) else m x

/-- The call `memcpy(data, usb_dpram + off, c)`: the first `c` bytes of the caller
buffer are replaced. -/
def memcpy_from (buf : Mem) (m : Mem) (off c : Nat) : Mem := fun i =>
  if i < c then m (off + i) else buf i

/-- Modelled from the spec: byte offset of `usb_dpram->setup_packet`, "a dedicated
hardware buffer".  The layout of `usb_dpram` is declared in `hardware/structs/usb.h`,
outside this source file: the setup packet, the endpoint-control words and the
buffer-control words occupy the first `0x100` bytes, the packet buffers follow. -/
def setup_packet_addr : Nat := 0
/-- Modelled from the spec: byte offset of `usb_dpram->ep_ctrl[i].in`. -/
def ep_ctrl_in_addr (i : Nat) : Nat := 0x8 + 8 * i
/-- Modelled from the spec: byte offset of `usb_dpram->ep_ctrl[i].out`. -/
def ep_ctrl_out_addr (i : Nat) : Nat := 0xc + 8 * i
/-- Modelled from the spec: byte offset of `usb_dpram->ep_buf_ctrl[ep].in`. -/
def ep_buf_ctrl_in_addr (ep : Nat) : Nat := 0x80 + 8 * ep
/-- Modelled from the spec: byte offset of `usb_dpram->ep_buf_ctrl[ep].out`. -/
def ep_buf_ctrl_out_addr (ep : Nat) : Nat := 0x84 + 8 * ep

/-! ## Driver state -/

/-- The registers of `usb_hw` the driver touches. -/
structure UsbHw where
  intr : Nat
  ints : Nat
  inte : Nat
  sie_status : Nat
  sie_ctrl : Nat
  buf_status : Nat
  dev_addr_ctrl : Nat
  ep_stall_arm : Nat
  muxing : Nat
  pwr : Nat
  main_ctrl : Nat
  phy_direct : Nat
  phy_direct_override : Nat

/-- Everything the driver reads or writes. -/
structure State where
  /-- the shared packet memory `usb_dpram` -/
  dpram : Mem
  /-- the USB controller registers -/
  usb_hw : UsbHw
  /-- the static `set_address` byte (Device Address Latch) -/
  set_address : Nat
  /-- the wake flag of `usb_errata_wake` -/
  usb_errata_wake : Bool
  /-- the register `iobank0_hw->io[15].ctrl` -/
  gpio15_ctrl : Nat
  /-- the register `padsbank0_hw->io[15]` -/
  pad15_ctrl : Nat
  /-- the register `watchdog_hw->ctrl` -/
  watchdog_ctrl : Nat
  /-- number of calls of `usb_notify_ep0` -/
  notify_ep0 : Nat
  /-- number of calls of `usb_notify_bulk_in` -/
  notify_bulk_in : Nat
  /-- number of calls of `usb_notify_bulk_out` -/
  notify_bulk_out : Nat
  /-- number of calls of `reset_to_usb_boot` -/
  usb_boot_requests : Nat
  /-- peripheral clocks enabled through `enable_pclock` (reset bits or-ed together) -/
  pclock : Nat
  /-- whether `armcm_enable_irq(USB_Handler, ...)` has run -/
  irq_enabled : Bool

/-- Conversion of an unsigned 32-bit value to the signed return type
(`int_fast8_t` and `uint_fast8_t` are the 32-bit `int` types on this target). -/
def toInt32 (n : Nat) : Int :=
  if n % 2 ^ 32 < 2 ^ 31 then ((n % 2 ^ 32 : Nat) : Int)
  else ((n % 2 ^ 32 : Nat) : Int) - 2 ^ 32

/-! ## USB transfer memory (source lines 28-77) -/

/-- Source lines 30-34, in `uint32_t` arithmetic. -/
def usb_buf_offset (ep : Nat) : Nat := (0x100 + ep * DPBUF_SIZE * 2) % 2 ^ 32

/-- Source lines 36-54. -/
def usb_write_packet (s : State) (ep : Nat) (data : Mem) (len : Nat) : State × Int :=
  let epb := read32 s.dpram (ep_buf_ctrl_in_addr ep)
  if epb &&& (USB_BUF_CTRL_AVAIL ||| USB_BUF_CTRL_FULL) ≠ 0 then (s, -1)
  else
    let pid := (epb ^^^ USB_BUF_CTRL_DATA1_PID) &&& USB_BUF_CTRL_DATA1_PID
    let new_epb := USB_BUF_CTRL_FULL ||| USB_BUF_CTRL_LAST ||| pid ||| len
    let m1 := write32 s.dpram (ep_buf_ctrl_in_addr ep) new_epb
    let m2 := memcpy_to m1 (usb_buf_offset ep) data len
    let m3 := write32 m2 (ep_buf_ctrl_in_addr ep) (new_epb ||| USB_BUF_CTRL_AVAIL)
    ({ s with dpram := m3 }, toInt32 len)

/-- Source lines 56-77; the second component is the caller buffer after the call. -/
def usb_read_packet (s : State) (ep : Nat) (data : Mem) (max_len : Nat) :
    State × Mem × Int :=
  let epb := read32 s.dpram (ep_buf_ctrl_out_addr ep)
  if epb &&& (USB_BUF_CTRL_AVAIL ||| USB_BUF_CTRL_FULL) ≠ USB_BUF_CTRL_FULL then
    (s, data, -1)
  else
    let pid := (epb ^^^ USB_BUF_CTRL_DATA1_PID) &&& USB_BUF_CTRL_DATA1_PID
    let new_epb := USB_BUF_CTRL_LAST ||| pid ||| DPBUF_SIZE
    let m1 := write32 s.dpram (ep_buf_ctrl_out_addr ep) new_epb
    let c := epb &&& USB_BUF_CTRL_LEN_MASK
    let c := if c > max_len then max_len else c
    let data1 := memcpy_from data m1 (usb_buf_offset ep) c
    let m2 := write32 m1 (ep_buf_ctrl_out_addr ep) (new_epb ||| USB_BUF_CTRL_AVAIL)
    ({ s with dpram := m2 }, data1, toInt32 c)

/-! ## Register access helpers of the platform -/

/-- Modelled from the spec: a store to a write-one-to-clear status register of the
controller (`sie_status`, `buf_status`) "clears" the flags written as one; the
hardware behaviour is outside this source file. -/
def hw_w1c (reg written : Nat) : Nat := reg ^^^ (reg &&& written)

/-- Modelled from the spec: `hw_write_masked(addr, values, mask)` of the platform
SDK (outside this source file) "reconfigures" the field selected by
`mask` to `values` and keeps the other bits. -/
def hw_write_masked (reg values mask : Nat) : Nat := reg ^^^ ((reg ^^^ values) &&& mask)

/-- Modelled from the spec: a store through `hw_set_alias` ("force ... via a
direct/override register path") sets the written bits. -/
def hw_set_alias (reg bits : Nat) : Nat := reg ||| bits

/-- Modelled from the spec: a store through `hw_clear_alias` ("remove the pull-up
override") clears the written bits. -/
def hw_clear_alias (reg bits : Nat) : Nat := reg ^^^ (reg &&& bits)

/-- Modelled from the spec: `usb_notify_ep0` is the callback of the upper layer
("on_control_event", outside this source file); the model counts the calls. -/
def usb_notify_ep0 (s : State) : State := { s with notify_ep0 := s.notify_ep0 + 1 }

/-- Modelled from the spec: `usb_notify_bulk_in`, the callback "on_bulk_send_ready"
of the upper layer; the model counts the calls. -/
def usb_notify_bulk_in (s : State) : State :=
  { s with notify_bulk_in := s.notify_bulk_in + 1 }

/-- Modelled from the spec: `usb_notify_bulk_out`, the callback
"on_bulk_receive_ready" of the upper layer; the model counts the calls. -/
def usb_notify_bulk_out (s : State) : State :=
  { s with notify_bulk_out := s.notify_bulk_out + 1 }

/-- Modelled from the spec: `sched_wake_task(&usb_errata_wake)` of the scheduler
("mark woken", outside this source file). -/
def sched_wake_task (s : State) : State := { s with usb_errata_wake := true }

/-! ## Interface (source lines 84-169) -/

/-- Source lines 84-88. -/
def usb_read_bulk_out (s : State) (data : Mem) (max_len : Nat) : State × Mem × Int :=
  usb_read_packet s USB_CDC_EP_BULK_OUT data max_len

/-- Source lines 90-94. -/
def usb_send_bulk_in (s : State) (data : Mem) (len : Nat) : State × Int :=
  usb_write_packet s USB_CDC_EP_BULK_IN data len

/-- Source lines 96-116.  The raw interrupt register is read twice; the first read
returns the value held by the state at entry, the second read returns
`intr_recheck`, the value the hardware shows after the copy. -/
def usb_read_ep0_setup (s : State) (intr_recheck : Nat) (data : Mem) (max_len : Nat) :
    State × Mem × Int :=
  if s.usb_hw.intr &&& USB_INTR_SETUP_REQ_BITS = 0 then
    ({ s with usb_hw := { s.usb_hw with
          inte := USB_INTE_BUFF_STATUS_BITS ||| USB_INTE_SETUP_REQ_BITS } }, data, -1)
  else
    let m1 := write32 s.dpram (ep_buf_ctrl_in_addr 0) 0
    let m2 := write32 m1 (ep_buf_ctrl_out_addr 0)
      (USB_BUF_CTRL_DATA1_PID ||| USB_BUF_CTRL_LAST ||| USB_BUF_CTRL_AVAIL ||| DPBUF_SIZE)
    let hw1 := { s.usb_hw with
      sie_status := hw_w1c s.usb_hw.sie_status USB_SIE_STATUS_SETUP_REC_BITS,
      intr := intr_recheck }
    let data1 := memcpy_from data m2 setup_packet_addr max_len
    let s1 := { s with dpram := m2, usb_hw := hw1 }
    if intr_recheck &&& USB_INTR_SETUP_REQ_BITS ≠ 0 then
      -- Raced with next setup packet
      (usb_notify_ep0 s1, data1, -1)
    else
      (s1, data1, toInt32 max_len)

/-- Source lines 118-125. -/
def usb_read_ep0 (s : State) (data : Mem) (max_len : Nat) : State × Mem × Int :=
  if s.usb_hw.intr &&& USB_INTR_SETUP_REQ_BITS ≠ 0 then (s, data, -2)
  else usb_read_packet s 0 data max_len

/-- Source lines 127-134. -/
def usb_send_ep0 (s : State) (data : Mem) (len : Nat) : State × Int :=
  if s.usb_hw.intr &&& USB_INTR_SETUP_REQ_BITS ≠ 0 ∨ s.usb_hw.buf_status &&& 2 ≠ 0 then
    (s, -2)
  else usb_write_packet s 0 data len

/-- Source lines 136-145. -/
def usb_stall_ep0 (s : State) : State :=
  let m1 := write32 s.dpram (ep_buf_ctrl_in_addr 0) 0
  let m2 := write32 m1 (ep_buf_ctrl_out_addr 0) 0
  let hw1 := { s.usb_hw with ep_stall_arm := USB_EP_STALL_ARM_BITS }
  let m3 := write32 m2 (ep_buf_ctrl_in_addr 0) USB_BUF_CTRL_STALL
  let m4 := write32 m3 (ep_buf_ctrl_out_addr 0) USB_BUF_CTRL_STALL
  usb_notify_ep0 { s with dpram := m4, usb_hw := hw1 }

/-- The null pointer passed as payload of a zero-length packet: no byte of it is read. -/
def NULL : Mem := fun _ => 0

/-- Source lines 149-154: `writeb` stores the low byte of `addr`; the result of
`usb_send_ep0` is discarded. -/
def usb_set_address (s : State) (addr : Nat) : State :=
  let s1 := { s with set_address := addr % 256 }
  (usb_send_ep0 s1 NULL 0).1

/-- Source lines 156-162. -/
def usb_set_configure (s : State) : State :=
  let m1 := write32 s.dpram (ep_buf_ctrl_in_addr USB_CDC_EP_BULK_IN) USB_BUF_CTRL_DATA1_PID
  let m2 := write32 m1 (ep_buf_ctrl_out_addr USB_CDC_EP_BULK_OUT)
    (USB_BUF_CTRL_AVAIL ||| USB_BUF_CTRL_LAST ||| DPBUF_SIZE)
  { s with dpram := m2 }

/-- Source lines 164-169: the call of `reset_to_usb_boot` is recorded; it does not return. -/
def usb_request_bootloader (s : State) : State :=
  { s with usb_boot_requests := s.usb_boot_requests + 1 }

/-! ## USB errata workaround (source lines 176-261) -/

/-- What the task observes of the hardware and the platform while it runs:
the successive values returned by reads of `usb_hw->sie_status` and by
`timer_read_time()`, and the two timer helpers of the platform. -/
structure Env where
  /-- value returned by the `k`-th read of `usb_hw->sie_status` in the call -/
  sie_status : Nat → Nat
  /-- value returned by the `k`-th call of `timer_read_time()` in the call -/
  timer_read_time : Nat → Nat
  /-- conversion of microseconds to timer ticks -/
  timer_from_us : Nat → Nat
  /-- the "is-before" comparison of two times -/
  timer_is_before : Nat → Nat → Bool

/-- Source lines 229-230: the busy wait; `k` is the index of the next timer read and
the result is the index after the loop. -/
def wait_1ms (env : Env) (endtime : Nat) : Nat → Nat → Option Nat
  | 0, _ => none
  | fuel + 1, k =>
    if env.timer_is_before (env.timer_read_time k) endtime then
      wait_1ms env endtime fuel (k + 1)
    else some (k + 1)

/-- Source lines 234-240: poll for the connected state; `kt` and `ks` are the
indices of the next timer read and the next status read.  The result tells
whether the loop ended on the connected state (`true`) or on the timeout. -/
def wait_connected (env : Env) (endtime : Nat) : Nat → Nat → Nat → Option Bool
  | 0, _, _ => none
  | fuel + 1, kt, ks =>
    if env.sie_status ks &&& USB_SIE_STATUS_CONNECTED_BITS ≠ 0 then some true
    else if env.timer_is_before endtime (env.timer_read_time kt) then some false
    else wait_connected env endtime fuel (kt + 1) (ks + 1)

/-- Source lines 198-251, the workaround proper, entered once the task has decided
to apply it.  `none` means the fuel ran out inside one of the two loops. -/
def usb_errata_workaround (env : Env) (fuel : Nat) (s : State) : Option State :=
  -- Backup GPIO15 pad state
  let gpio_ctrl_prev := s.gpio15_ctrl
  let pad_ctrl_prev := s.pad15_ctrl
  -- Enable bus keep
  let s := { s with pad15_ctrl := (hw_write_masked s.pad15_ctrl
    (PADS_BANK0_GPIO15_PUE_BITS ||| PADS_BANK0_GPIO15_PDE_BITS)
    (PADS_BANK0_GPIO15_PUE_BITS ||| PADS_BANK0_GPIO15_PDE_BITS)) }
  -- Disable pad output
  let s := { s with gpio15_ctrl := (hw_write_masked s.gpio15_ctrl
    (0x2 <<< IO_BANK0_GPIO15_CTRL_OEOVER_LSB) IO_BANK0_GPIO15_CTRL_OEOVER_BITS) }
  -- Enable USB debug muxing function
  let s := { s with gpio15_ctrl := (hw_write_masked s.gpio15_ctrl
    (8 <<< IO_BANK0_GPIO15_CTRL_FUNCSEL_LSB) IO_BANK0_GPIO15_CTRL_FUNCSEL_BITS) }
  -- Set input override
  let s := { s with gpio15_ctrl := (hw_write_masked s.gpio15_ctrl
    (0x3 <<< IO_BANK0_GPIO15_CTRL_INOVER_LSB) IO_BANK0_GPIO15_CTRL_INOVER_BITS) }
  -- PHY pullups need to stay on
  let s := { s with usb_hw := { s.usb_hw with
    phy_direct := hw_set_alias s.usb_hw.phy_direct USB_USBPHY_DIRECT_DP_PULLUP_EN_BITS } }
  let s := { s with usb_hw := { s.usb_hw with
    phy_direct_override := hw_set_alias s.usb_hw.phy_direct_override
      USB_USBPHY_DIRECT_OVERRIDE_DP_PULLUP_EN_OVERRIDE_EN_BITS } }
  -- Switch from USB PHY to GPIO PHY, now with J forced
  let s := { s with usb_hw := { s.usb_hw with
    muxing := USB_USB_MUXING_TO_DIGITAL_PAD_BITS ||| USB_USB_MUXING_SOFTCON_BITS } }
  -- Wait 1ms
  let endtime := (env.timer_read_time 0 + env.timer_from_us 1000) % 2 ^ 32
  match wait_1ms env endtime fuel 1 with
  | none => none
  | some kt =>
    -- Verify in connected state
    let endtime := (endtime + env.timer_from_us 1000) % 2 ^ 32
    match wait_connected env endtime fuel kt 2 with
    | none => none
    | some _ =>
      -- Switch back to USB phy
      let s := { s with usb_hw := { s.usb_hw with
        muxing := USB_USB_MUXING_TO_PHY_BITS ||| USB_USB_MUXING_SOFTCON_BITS } }
      -- Unset PHY pullup overrides
      let s := { s with usb_hw := { s.usb_hw with
        phy_direct_override := hw_clear_alias s.usb_hw.phy_direct_override
          USB_USBPHY_DIRECT_OVERRIDE_DP_PULLUP_EN_OVERRIDE_EN_BITS } }
      -- Restore GPIO control states
      let s := { s with gpio15_ctrl := gpio_ctrl_prev }
      some { s with pad15_ctrl := pad_ctrl_prev }

/-- Source lines 182-251.  `sched_check_wake` (scheduler code outside this
source file; "check and clear if woken") returns the wake flag and clears it;
`sched_wake_task` ("mark woken") sets it.  Status reads 0 and 1 are the two
reads before the workaround, the later ones belong to the polling loop. -/
def usb_errata_task (env : Env) (fuel : Nat) (s : State) : Option State :=
  if s.usb_errata_wake = false then some s
  else
    let s := { s with usb_errata_wake := false }
    if env.sie_status 0 &&& USB_SIE_STATUS_CONNECTED_BITS ≠ 0 then
      -- Already connected - workaround not needed
      some s
    else if env.sie_status 1 &&& USB_SIE_STATUS_LINE_STATE_BITS = 0 then
      -- Wait for not in SE0 state
      some (sched_wake_task s)
    else usb_errata_workaround env fuel s

/-- Source lines 254-260. -/
def usb_reset (s : State) : State :=
  if s.usb_hw.sie_status &&& USB_SIE_STATUS_CONNECTED_BITS = 0 then
    -- if not connected
    { s with watchdog_ctrl := 0x80000000 }
  else s

/-! ## Setup and interrupts (source lines 267-346) -/

/-- Source lines 272-273, the setup-request branch of the handler. -/
def USB_Handler_setup_req (s : State) : State :=
  usb_notify_ep0 { s with usb_hw := { s.usb_hw with inte := USB_INTE_BUFF_STATUS_BITS } }

/-- Source lines 291-292, the bus-reset branch of the handler. -/
def USB_Handler_bus_reset (s : State) : State :=
  sched_wake_task { s with usb_hw := { s.usb_hw with
    sie_status := hw_w1c s.usb_hw.sie_status USB_SIE_STATUS_BUS_RESET_BITS } }

/-- Source lines 276-288, the buffer-status branch of the handler. -/
def USB_Handler_buff_status (s : State) : State :=
  let buf_status := s.usb_hw.buf_status
  let s := { s with usb_hw := { s.usb_hw with
    buf_status := hw_w1c s.usb_hw.buf_status buf_status } }
  let s := if buf_status &&& (1 <<< (USB_CDC_EP_BULK_OUT * 2 + 1)) ≠ 0 then
      usb_notify_bulk_out s else s
  let s := if buf_status &&& (1 <<< (USB_CDC_EP_BULK_IN * 2)) ≠ 0 then
      usb_notify_bulk_in s else s
  if buf_status &&& 3 ≠ 0 then
    let s := usb_notify_ep0 s
    if buf_status &&& 1 ≠ 0 ∧ s.set_address ≠ 0 then
      { s with usb_hw := { s.usb_hw with dev_addr_ctrl := s.set_address },
               set_address := 0 }
    else s
  else s

/-- Source lines 267-294. -/
def USB_Handler (s : State) : State :=
  let ints := s.usb_hw.ints
  let s := if ints &&& USB_INTS_SETUP_REQ_BITS ≠ 0 then USB_Handler_setup_req s else s
  let s := if ints &&& USB_INTS_BUFF_STATUS_BITS ≠ 0 then USB_Handler_buff_status s else s
  if ints &&& USB_INTS_BUS_RESET_BITS ≠ 0 then USB_Handler_bus_reset s else s

/-- Source lines 296-313. -/
def endpoint_setup (s : State) : State :=
  -- ACM
  let ep_acm := EP_CTRL_ENABLE_BITS ||| usb_buf_offset USB_CDC_EP_ACM
    ||| (USB_ENDPOINT_XFER_INT <<< EP_CTRL_BUFFER_TYPE_LSB)
  let m := write32 s.dpram (ep_ctrl_in_addr (USB_CDC_EP_ACM - 1)) ep_acm
  -- BULK
  let ep_out := EP_CTRL_ENABLE_BITS ||| usb_buf_offset USB_CDC_EP_BULK_OUT
    ||| EP_CTRL_INTERRUPT_PER_BUFFER
    ||| (USB_ENDPOINT_XFER_BULK <<< EP_CTRL_BUFFER_TYPE_LSB)
  let m := write32 m (ep_ctrl_out_addr (USB_CDC_EP_BULK_OUT - 1)) ep_out
  let ep_in := EP_CTRL_ENABLE_BITS ||| usb_buf_offset USB_CDC_EP_BULK_IN
    ||| EP_CTRL_INTERRUPT_PER_BUFFER
    ||| (USB_ENDPOINT_XFER_BULK <<< EP_CTRL_BUFFER_TYPE_LSB)
  let m := write32 m (ep_ctrl_in_addr (USB_CDC_EP_BULK_IN - 1)) ep_in
  let m := write32 m (ep_buf_ctrl_in_addr USB_CDC_EP_BULK_IN) USB_BUF_CTRL_FULL
  { s with dpram := m }

/-- The call `memset(usb_dpram, 0, sizeof(*usb_dpram))`. -/
def memset_dpram (m : Mem) : Mem := fun x => if x < USB_DPRAM_SIZE then 0 else m x

/-- Source lines 315-346; `chip_id` is the value read from the chip id register. -/
def usbserial_init (chip_id : Nat) (s : State) : State :=
  -- Configure usb clock
  let s := { s with pclock := s.pclock ||| RESETS_RESET_USBCTRL_BITS }
  -- Setup shared memory area
  let s := { s with dpram := memset_dpram s.dpram }
  let s := endpoint_setup s
  -- Enable USB in device mode
  let s := { s with usb_hw := { s.usb_hw with
    muxing := USB_USB_MUXING_TO_PHY_BITS ||| USB_USB_MUXING_SOFTCON_BITS } }
  let s := { s with usb_hw := { s.usb_hw with
    pwr := USB_USB_PWR_VBUS_DETECT_BITS ||| USB_USB_PWR_VBUS_DETECT_OVERRIDE_EN_BITS } }
  let s := { s with usb_hw := { s.usb_hw with main_ctrl := USB_MAIN_CTRL_CONTROLLER_EN_BITS } }
  -- Check if usb errata workaround needed
  let s := { s with pclock := s.pclock ||| RESETS_RESET_SYSINFO_BITS }
  let version := (chip_id &&& SYSINFO_CHIP_ID_REVISION_BITS) >>> SYSINFO_CHIP_ID_REVISION_LSB
  -- Enable irqs
  let s := { s with usb_hw := { s.usb_hw with sie_ctrl := USB_SIE_CTRL_EP0_INT_1BUF_BITS } }
  let s := { s with usb_hw := { s.usb_hw with
    inte := USB_INTE_BUFF_STATUS_BITS ||| USB_INTE_SETUP_REQ_BITS
      ||| (if version = 1 then USB_INTE_BUS_RESET_BITS else 0) } }
  let s := { s with irq_enabled := true }
  -- Enable USB pullup
  { s with usb_hw := { s.usb_hw with
    sie_ctrl := USB_SIE_CTRL_EP0_INT_1BUF_BITS ||| USB_SIE_CTRL_PULLUP_EN_BITS } }

/-! ## Reading the completion bitmap and concrete states -/

/-- Completion bit of the IN direction of endpoint `ep` in `buf_status`, as tested
for the bulk-IN endpoint at source line 280. -/
def buf_status_in_bit (ep : Nat) : Nat := 1 <<< (ep * 2)

/-- Completion bit of the OUT direction of endpoint `ep` in `buf_status`, as tested
for the bulk-OUT endpoint at source line 278. -/
def buf_status_out_bit (ep : Nat) : Nat := 1 <<< (ep * 2 + 1)

/-- The state with zeroed memory and registers. -/
def state0 : State :=
  { dpram := fun _ => 0
    usb_hw :=
      { intr := 0, ints := 0, inte := 0, sie_status := 0, sie_ctrl := 0, buf_status := 0,
        dev_addr_ctrl := 0, ep_stall_arm := 0, muxing := 0, pwr := 0, main_ctrl := 0,
        phy_direct := 0, phy_direct_override := 0 }
    set_address := 0
    usb_errata_wake := false
    gpio15_ctrl := 0
    pad15_ctrl := 0
    watchdog_ctrl := 0
    notify_ep0 := 0
    notify_bulk_in := 0
    notify_bulk_out := 0
    usb_boot_requests := 0
    pclock := 0
    irq_enabled := false }

/-- A four byte payload. -/
def payload : Mem := fun i => byteOf (0x41 + i)

/-- A state whose bulk-OUT buffer holds a received packet of five bytes. -/
def state_rx : State :=
  { state0 with dpram :=
      (write32 (memcpy_to state0.dpram (usb_buf_offset USB_CDC_EP_BULK_OUT) payload 5)
        (ep_buf_ctrl_out_addr USB_CDC_EP_BULK_OUT) (USB_BUF_CTRL_FULL ||| 5)) }

/-- Address 5 is latched and the handler sees a buffer-status interrupt that
reports only the OUT-direction completion of endpoint 0. -/
def state_addr_out : State :=
  { state0 with
    set_address := 5
    usb_hw := { state0.usb_hw with
      ints := USB_INTS_BUFF_STATUS_BITS, buf_status := buf_status_out_bit 0 } }

/-- Address 5 is latched and the handler sees a buffer-status interrupt that
reports only the IN-direction completion of endpoint 0. -/
def state_addr_in : State :=
  { state0 with
    set_address := 5
    usb_hw := { state0.usb_hw with
      ints := USB_INTS_BUFF_STATUS_BITS, buf_status := buf_status_in_bit 0 } }

/-- A setup packet is pending. -/
def state_setup : State :=
  { state0 with usb_hw := { state0.usb_hw with intr := USB_INTR_SETUP_REQ_BITS } }

/-- The comparison `(int32_t)(time1 - time2) < 0` on 32-bit times. -/
def timer_is_before32 (time1 time2 : Nat) : Bool :=
  decide (2 ^ 31 ≤ (time1 % 2 ^ 32 + 2 ^ 32 - time2 % 2 ^ 32) % 2 ^ 32)

/-- An environment in which the bus never reports the connected state: the line
state is settled, the timer runs at 12 ticks per microsecond and advances by
20000 ticks per read until it stops at 60000. -/
def env_timeout : Env :=
  { sie_status := fun _ => 0x4
    timer_read_time := fun k => 20000 * min k 3
    timer_from_us := fun us => us * 12
    timer_is_before := timer_is_before32 }

/-- A woken errata task with arbitrary non-zero GPIO15 settings. -/
def state_woken : State :=
  { state0 with usb_errata_wake := true, gpio15_ctrl := 0x1f, pad15_ctrl := 0x56 }

/-! ## Memory lemmas -/

theorem read32_write32_same (m : Mem) (a v : Nat) :
    read32 (write32 m a v) a = v % 2 ^ 32 := by
  simp [read32, write32, byteOf]
  omega

theorem write32_apply_of_not_mem (m : Mem) (a v x : Nat) (h : x < a ∨ a + 4 ≤ x) :
    write32 m a v x = m x := by
  have h0 : x ≠ a := by omega
  have h1 : x ≠ a + 1 := by omega
  have h2 : x ≠ a + 2 := by omega
  have h3 : x ≠ a + 3 := by omega
  simp [write32, h0, h1, h2, h3]

theorem read32_congr (m n : Mem) (a : Nat)
    (h : ∀ x, a ≤ x → x < a + 4 → m x = n x) : read32 m a = read32 n a := by
  unfold read32
  rw [h a (by omega) (by omega), h (a + 1) (by omega) (by omega),
    h (a + 2) (by omega) (by omega), h (a + 3) (by omega) (by omega)]

theorem memcpy_to_apply_mem (m data : Mem) (off len i : Nat) (h : i < len) :
    memcpy_to m off data len (off + i) = data i := by
  have h1 : off ≤ off + i ∧ off + i < off + len := by omega
  simp [memcpy_to, h1]

theorem memcpy_to_apply_of_not_mem (m data : Mem) (off len x : Nat)
    (h : x < off ∨ off + len ≤ x) : memcpy_to m off data len x = m x := by
  have h1 : ¬ (off ≤ x ∧ x < off + len) := by omega
  simp [memcpy_to, h1]

theorem read32_memcpy_to_of_disjoint (m data : Mem) (off len a : Nat)
    (h : a + 4 ≤ off ∨ off + len ≤ a) :
    read32 (memcpy_to m off data len) a = read32 m a :=
  read32_congr _ _ _ (fun x h1 h2 => memcpy_to_apply_of_not_mem m data off len x (by omega))

theorem read32_lt (m : Mem) (a : Nat) : read32 m a < 2 ^ 32 := by
  unfold read32
  have h0 := (m a).isLt
  have h1 := (m (a + 1)).isLt
  have h2 := (m (a + 2)).isLt
  have h3 := (m (a + 3)).isLt
  omega

theorem usb_buf_offset_eq (ep : Nat) (h : ep < USB_NUM_ENDPOINTS) :
    usb_buf_offset ep = 0x100 + 128 * ep := by
  unfold usb_buf_offset DPBUF_SIZE
  unfold USB_NUM_ENDPOINTS at h
  omega

theorem toInt32_of_lt (n : Nat) (h : n < 2 ^ 31) : toInt32 n = (n : Int) := by
  have h1 : n % 2 ^ 32 = n := Nat.mod_eq_of_lt (by omega)
  unfold toInt32
  rw [h1, if_pos h]

theorem guard_clear (epb : Nat) (ha : epb &&& USB_BUF_CTRL_AVAIL = 0)
    (hf : epb &&& USB_BUF_CTRL_FULL = 0) :
    epb &&& (USB_BUF_CTRL_AVAIL ||| USB_BUF_CTRL_FULL) = 0 := by
  rw [Nat.and_or_distrib_left, ha, hf]; rfl

/-! ## Control-word lemmas -/

theorem and_bit (x k : Nat) : x &&& 2 ^ k = if x.testBit k then 2 ^ k else 0 := by
  rw [Nat.and_two_pow]; cases x.testBit k <;> simp

theorem pid_cases (epb : Nat) :
    (epb ^^^ USB_BUF_CTRL_DATA1_PID) &&& USB_BUF_CTRL_DATA1_PID
      = if epb &&& USB_BUF_CTRL_DATA1_PID = 0 then USB_BUF_CTRL_DATA1_PID else 0 := by
  have e : USB_BUF_CTRL_DATA1_PID = 2 ^ 13 := by decide
  rw [e, and_bit, and_bit, Nat.testBit_xor, Nat.testBit_two_pow_self]
  cases h : epb.testBit 13 <;> simp

theorem len_and_high (len k : Nat) (hk : 10 ≤ k) (hlen : len < 1024) : len &&& 2 ^ k = 0 := by
  have h1 : len < 2 ^ k :=
    lt_of_lt_of_le hlen (by simpa using Nat.pow_le_pow_right (n := 2) (by decide) hk)
  rw [and_bit, Nat.testBit_lt_two_pow h1]; simp

/-- The word stored last by `usb_write_packet`, for a length that fits the LENGTH field. -/
theorem in_word_props (epb len : Nat) (hlen : len < 1024) :
    let w := USB_BUF_CTRL_FULL ||| USB_BUF_CTRL_LAST
      ||| ((epb ^^^ USB_BUF_CTRL_DATA1_PID) &&& USB_BUF_CTRL_DATA1_PID) ||| len
      ||| USB_BUF_CTRL_AVAIL
    w < 2 ^ 32 ∧ w &&& USB_BUF_CTRL_LEN_MASK = len ∧ w &&& USB_BUF_CTRL_FULL ≠ 0
      ∧ w &&& USB_BUF_CTRL_LAST ≠ 0 ∧ w &&& USB_BUF_CTRL_AVAIL ≠ 0
      ∧ (w &&& USB_BUF_CTRL_DATA1_PID ≠ 0 ↔ epb &&& USB_BUF_CTRL_DATA1_PID = 0) := by
  intro w
  have hl : len &&& 1023 = len := Nat.and_pow_two_sub_one_of_lt_two_pow (n := 10) hlen
  have hl32 : len < 2 ^ 32 := by omega
  have hF : len &&& 32768 = 0 := len_and_high len 15 (by decide) hlen
  have hL : len &&& 16384 = 0 := len_and_high len 14 (by decide) hlen
  have hD : len &&& 8192 = 0 := len_and_high len 13 (by decide) hlen
  have hA : len &&& 1024 = 0 := len_and_high len 10 (by decide) hlen
  have key : ∀ K M : Nat,
      (K ||| len ||| 1024) &&& M = (K &&& M) ||| (len &&& M) ||| (1024 &&& M) := by
    intro K M; simp [Nat.and_distrib_right]
  have hp := pid_cases epb
  by_cases h : epb &&& USB_BUF_CTRL_DATA1_PID = 0
  · rw [if_pos h] at hp
    simp only [w, hp, h]
    simp only [USB_BUF_CTRL_FULL, USB_BUF_CTRL_LAST, USB_BUF_CTRL_DATA1_PID,
      USB_BUF_CTRL_AVAIL, USB_BUF_CTRL_LEN_MASK]
    refine ⟨?_, ?_, ?_, ?_, ?_, ?_⟩
    · exact Nat.or_lt_two_pow (Nat.or_lt_two_pow (by decide) hl32) (by decide)
    · rw [key, hl]; change 0 ||| len ||| 0 = len; simp
    · rw [key, hF]; decide
    · rw [key, hL]; decide
    · rw [key, hA]; decide
    · rw [key, hD]; decide
  · rw [if_neg h] at hp
    simp only [w, hp, h]
    simp only [USB_BUF_CTRL_FULL, USB_BUF_CTRL_LAST, USB_BUF_CTRL_DATA1_PID,
      USB_BUF_CTRL_AVAIL, USB_BUF_CTRL_LEN_MASK]
    refine ⟨?_, ?_, ?_, ?_, ?_, ?_⟩
    · exact Nat.or_lt_two_pow (Nat.or_lt_two_pow (by decide) hl32) (by decide)
    · rw [key, hl]; change 0 ||| len ||| 0 = len; simp
    · rw [key, hF]; decide
    · rw [key, hL]; decide
    · rw [key, hA]; decide
    · rw [key, hD]; decide

/-- What `usb_write_packet` does once the guard on the IN control word has passed. -/
theorem usb_write_packet_of_clear (s : State) (ep : Nat) (data : Mem) (len : Nat)
    (h : read32 s.dpram (ep_buf_ctrl_in_addr ep)
      &&& (USB_BUF_CTRL_AVAIL ||| USB_BUF_CTRL_FULL) = 0) :
    usb_write_packet s ep data len =
      ({ s with dpram :=
          (write32 (memcpy_to (write32 s.dpram (ep_buf_ctrl_in_addr ep)
              (USB_BUF_CTRL_FULL ||| USB_BUF_CTRL_LAST
                ||| ((read32 s.dpram (ep_buf_ctrl_in_addr ep) ^^^ USB_BUF_CTRL_DATA1_PID)
                      &&& USB_BUF_CTRL_DATA1_PID) ||| len))
            (usb_buf_offset ep) data len) (ep_buf_ctrl_in_addr ep)
            (USB_BUF_CTRL_FULL ||| USB_BUF_CTRL_LAST
                ||| ((read32 s.dpram (ep_buf_ctrl_in_addr ep) ^^^ USB_BUF_CTRL_DATA1_PID)
                      &&& USB_BUF_CTRL_DATA1_PID) ||| len ||| USB_BUF_CTRL_AVAIL)) },
        toInt32 len) := by
  simp [usb_write_packet, h]

/-- What `usb_write_packet` does when the guard on the IN control word fails. -/
theorem usb_write_packet_of_busy (s : State) (ep : Nat) (data : Mem) (len : Nat)
    (h : read32 s.dpram (ep_buf_ctrl_in_addr ep)
      &&& (USB_BUF_CTRL_AVAIL ||| USB_BUF_CTRL_FULL) ≠ 0) :
    usb_write_packet s ep data len = (s, -1) := by
  simp [usb_write_packet, h]

/-- C1: a write on an endpoint whose IN control word has AVAILABLE and FULL clear
returns `len`, leaves the `len` payload bytes at `usb_buf_offset ep`, the length in
the LENGTH field, FULL, LAST and AVAILABLE set, and the data toggle flipped. -/
theorem usb_write_packet_observed (s : State) (ep : Nat) (data : Mem) (len : Nat)
    (hep : ep < USB_NUM_ENDPOINTS) (hlen : len ≤ DPBUF_SIZE)
    (havail : read32 s.dpram (ep_buf_ctrl_in_addr ep) &&& USB_BUF_CTRL_AVAIL = 0)
    (hfull : read32 s.dpram (ep_buf_ctrl_in_addr ep) &&& USB_BUF_CTRL_FULL = 0) :
    (usb_write_packet s ep data len).2 = (len : Int)
    ∧ (∀ i, i < len →
        (usb_write_packet s ep data len).1.dpram (usb_buf_offset ep + i) = data i)
    ∧ read32 (usb_write_packet s ep data len).1.dpram (ep_buf_ctrl_in_addr ep)
        &&& USB_BUF_CTRL_LEN_MASK = len
    ∧ read32 (usb_write_packet s ep data len).1.dpram (ep_buf_ctrl_in_addr ep)
        &&& USB_BUF_CTRL_FULL ≠ 0
    ∧ read32 (usb_write_packet s ep data len).1.dpram (ep_buf_ctrl_in_addr ep)
        &&& USB_BUF_CTRL_LAST ≠ 0
    ∧ read32 (usb_write_packet s ep data len).1.dpram (ep_buf_ctrl_in_addr ep)
        &&& USB_BUF_CTRL_AVAIL ≠ 0
    ∧ (read32 (usb_write_packet s ep data len).1.dpram (ep_buf_ctrl_in_addr ep)
          &&& USB_BUF_CTRL_DATA1_PID ≠ 0
        ↔ read32 s.dpram (ep_buf_ctrl_in_addr ep) &&& USB_BUF_CTRL_DATA1_PID = 0) := by
  have hlen1 : len < 1024 := by unfold DPBUF_SIZE at hlen; omega
  have hoff := usb_buf_offset_eq ep hep
  have hep1 : ep < 16 := hep
  obtain ⟨hw, hL, hF, hLa, hA, hD⟩ :=
    in_word_props (read32 s.dpram (ep_buf_ctrl_in_addr ep)) len hlen1
  rw [usb_write_packet_of_clear s ep data len (guard_clear _ havail hfull)]
  simp only [read32_write32_same, Nat.mod_eq_of_lt hw]
  refine ⟨toInt32_of_lt len (by omega), ?_, hL, hF, hLa, hA, hD⟩
  intro i hi
  rw [write32_apply_of_not_mem _ _ _ _ (by unfold ep_buf_ctrl_in_addr; omega)]
  exact memcpy_to_apply_mem _ _ _ _ _ hi

/-- A word with AVAILABLE or-ed in, as stored in memory, fails the guard of
`usb_write_packet`. -/
theorem avail_word_busy (y : Nat) :
    (y ||| USB_BUF_CTRL_AVAIL) % 2 ^ 32
      &&& (USB_BUF_CTRL_AVAIL ||| USB_BUF_CTRL_FULL) ≠ 0 := by
  intro h
  have e1 : Nat.testBit USB_BUF_CTRL_AVAIL 10 = true := by decide
  have e2 : Nat.testBit (USB_BUF_CTRL_AVAIL ||| USB_BUF_CTRL_FULL) 10 = true := by decide
  have h10 : ((y ||| USB_BUF_CTRL_AVAIL) % 2 ^ 32
      &&& (USB_BUF_CTRL_AVAIL ||| USB_BUF_CTRL_FULL)).testBit 10 = false := by
    rw [h]; exact Nat.zero_testBit 10
  rw [Nat.testBit_and, Nat.testBit_mod_two_pow, Nat.testBit_or, e1, e2] at h10
  simp at h10

/-- C2: a second write on the same endpoint right after an accepted one reports
not-ready and leaves the whole state as the first write left it. -/
theorem usb_write_packet_twice (s : State) (ep : Nat) (d1 : Mem) (l1 : Nat) (d2 : Mem)
    (l2 : Nat)
    (havail : read32 s.dpram (ep_buf_ctrl_in_addr ep) &&& USB_BUF_CTRL_AVAIL = 0)
    (hfull : read32 s.dpram (ep_buf_ctrl_in_addr ep) &&& USB_BUF_CTRL_FULL = 0) :
    (usb_write_packet s ep d1 l1).2 = toInt32 l1
    ∧ usb_write_packet (usb_write_packet s ep d1 l1).1 ep d2 l2
        = ((usb_write_packet s ep d1 l1).1, -1) := by
  rw [usb_write_packet_of_clear s ep d1 l1 (guard_clear _ havail hfull)]
  refine ⟨rfl, ?_⟩
  apply usb_write_packet_of_busy
  simp only [read32_write32_same]
  exact avail_word_busy _

/-- Every byte outside the IN control word of `ep` and outside the copied range is
left alone by `usb_write_packet`, and so is everything that is not packet memory. -/
theorem usb_write_packet_footprint (s : State) (ep : Nat) (data : Mem) (len : Nat) :
    (∀ x, (x < ep_buf_ctrl_in_addr ep ∨ ep_buf_ctrl_in_addr ep + 4 ≤ x) →
        (x < usb_buf_offset ep ∨ usb_buf_offset ep + len ≤ x) →
        (usb_write_packet s ep data len).1.dpram x = s.dpram x)
    ∧ (usb_write_packet s ep data len).1
        = { s with dpram := (usb_write_packet s ep data len).1.dpram } := by
  by_cases h : read32 s.dpram (ep_buf_ctrl_in_addr ep)
      &&& (USB_BUF_CTRL_AVAIL ||| USB_BUF_CTRL_FULL) = 0
  · rw [usb_write_packet_of_clear s ep data len h]
    refine ⟨?_, rfl⟩
    intro x hx1 hx2
    simp only
    rw [write32_apply_of_not_mem _ _ _ _ hx1, memcpy_to_apply_of_not_mem _ _ _ _ _ hx2,
      write32_apply_of_not_mem _ _ _ _ hx1]
  · rw [usb_write_packet_of_busy s ep data len h]
    exact ⟨fun _ _ _ => rfl, rfl⟩

/-- C10: the footprint of `usb_write_packet` is the IN control word of `ep` and the
bytes `[usb_buf_offset ep, usb_buf_offset ep + len)`; that range lies in the 4096
byte memory at or above `0x100`, apart from the packet region of every other
endpoint; the other control words, the other packet regions and the rest of the
state are unchanged. -/
theorem usb_write_packet_frame (s : State) (ep : Nat) (data : Mem) (len : Nat)
    (hep : ep < USB_NUM_ENDPOINTS) (hlen : len ≤ DPBUF_SIZE) :
    usb_buf_offset ep = 0x100 + 128 * ep
    ∧ 0x100 ≤ usb_buf_offset ep
    ∧ usb_buf_offset ep + len ≤ USB_DPRAM_SIZE
    ∧ (∀ e, e < USB_NUM_ENDPOINTS → e ≠ ep →
        usb_buf_offset ep + len ≤ usb_buf_offset e
          ∨ usb_buf_offset e + DPBUF_SIZE ≤ usb_buf_offset ep)
    ∧ (∀ x, (x < ep_buf_ctrl_in_addr ep ∨ ep_buf_ctrl_in_addr ep + 4 ≤ x) →
        (x < usb_buf_offset ep ∨ usb_buf_offset ep + len ≤ x) →
        (usb_write_packet s ep data len).1.dpram x = s.dpram x)
    ∧ (∀ x, x < 0x80 → (usb_write_packet s ep data len).1.dpram x = s.dpram x)
    ∧ read32 (usb_write_packet s ep data len).1.dpram (ep_buf_ctrl_out_addr ep)
        = read32 s.dpram (ep_buf_ctrl_out_addr ep)
    ∧ (∀ e, e < USB_NUM_ENDPOINTS → e ≠ ep →
        read32 (usb_write_packet s ep data len).1.dpram (ep_buf_ctrl_in_addr e)
            = read32 s.dpram (ep_buf_ctrl_in_addr e)
        ∧ read32 (usb_write_packet s ep data len).1.dpram (ep_buf_ctrl_out_addr e)
            = read32 s.dpram (ep_buf_ctrl_out_addr e)
        ∧ ∀ i, i < DPBUF_SIZE →
            (usb_write_packet s ep data len).1.dpram (usb_buf_offset e + i)
              = s.dpram (usb_buf_offset e + i))
    ∧ (usb_write_packet s ep data len).1
        = { s with dpram := (usb_write_packet s ep data len).1.dpram } := by
  obtain ⟨hb, hrest⟩ := usb_write_packet_footprint s ep data len
  have hoff := usb_buf_offset_eq ep hep
  have hoffe : ∀ e, e < USB_NUM_ENDPOINTS → usb_buf_offset e = 0x100 + 128 * e :=
    fun e he => usb_buf_offset_eq e he
  unfold USB_NUM_ENDPOINTS at *
  unfold DPBUF_SIZE at *
  unfold USB_DPRAM_SIZE
  refine ⟨hoff, by omega, by omega, ?_, hb, ?_, ?_, ?_, hrest⟩
  · intro e he hne
    rw [hoffe e he]; omega
  · intro x hx
    exact hb x (by unfold ep_buf_ctrl_in_addr; omega) (by omega)
  · apply read32_congr
    intro x h1 h2
    unfold ep_buf_ctrl_out_addr at h1 h2
    exact hb x (by unfold ep_buf_ctrl_in_addr; omega) (by omega)
  · intro e he hne
    have hoe := hoffe e he
    refine ⟨?_, ?_, ?_⟩
    · apply read32_congr
      intro x h1 h2
      unfold ep_buf_ctrl_in_addr at h1 h2
      exact hb x (by unfold ep_buf_ctrl_in_addr; omega) (by omega)
    · apply read32_congr
      intro x h1 h2
      unfold ep_buf_ctrl_out_addr at h1 h2
      exact hb x (by unfold ep_buf_ctrl_in_addr; omega) (by omega)
    · intro i hi
      exact hb _ (by unfold ep_buf_ctrl_in_addr; omega) (by omega)

/-- The guard of `usb_read_packet`, bit by bit: FULL set and AVAILABLE clear. -/
theorem read_guard_iff (epb : Nat) :
    epb &&& (USB_BUF_CTRL_AVAIL ||| USB_BUF_CTRL_FULL) = USB_BUF_CTRL_FULL
      ↔ (epb &&& USB_BUF_CTRL_FULL ≠ 0 ∧ epb &&& USB_BUF_CTRL_AVAIL = 0) := by
  have eA : USB_BUF_CTRL_AVAIL = 2 ^ 10 := by decide
  have eF : USB_BUF_CTRL_FULL = 2 ^ 15 := by decide
  rw [Nat.and_or_distrib_left, eA, eF, and_bit, and_bit]
  cases epb.testBit 10 <;> cases epb.testBit 15 <;> decide

/-- The word stored last by `usb_read_packet`. -/
theorem out_word_props (epb : Nat) :
    let w := USB_BUF_CTRL_LAST
      ||| ((epb ^^^ USB_BUF_CTRL_DATA1_PID) &&& USB_BUF_CTRL_DATA1_PID) ||| DPBUF_SIZE
      ||| USB_BUF_CTRL_AVAIL
    w < 2 ^ 32 ∧ w &&& USB_BUF_CTRL_LEN_MASK = DPBUF_SIZE ∧ w &&& USB_BUF_CTRL_FULL = 0
      ∧ w &&& USB_BUF_CTRL_LAST ≠ 0 ∧ w &&& USB_BUF_CTRL_AVAIL ≠ 0
      ∧ (w &&& USB_BUF_CTRL_DATA1_PID ≠ 0 ↔ epb &&& USB_BUF_CTRL_DATA1_PID = 0) := by
  intro w
  have hp := pid_cases epb
  by_cases h : epb &&& USB_BUF_CTRL_DATA1_PID = 0
  · rw [if_pos h] at hp
    simp only [w, hp, h]
    decide
  · rw [if_neg h] at hp
    simp only [w, hp, h]
    decide

/-- What `usb_read_packet` does when the guard on the OUT control word fails. -/
theorem usb_read_packet_of_not_ready (s : State) (ep : Nat) (data : Mem) (max_len : Nat)
    (h : read32 s.dpram (ep_buf_ctrl_out_addr ep)
      &&& (USB_BUF_CTRL_AVAIL ||| USB_BUF_CTRL_FULL) ≠ USB_BUF_CTRL_FULL) :
    usb_read_packet s ep data max_len = (s, data, -1) := by
  simp [usb_read_packet, h]

/-- What `usb_read_packet` does once the guard on the OUT control word has passed. -/
theorem usb_read_packet_of_ready (s : State) (ep : Nat) (data : Mem) (max_len : Nat)
    (h : read32 s.dpram (ep_buf_ctrl_out_addr ep)
      &&& (USB_BUF_CTRL_AVAIL ||| USB_BUF_CTRL_FULL) = USB_BUF_CTRL_FULL) :
    usb_read_packet s ep data max_len =
      ({ s with dpram :=
          (write32 (write32 s.dpram (ep_buf_ctrl_out_addr ep)
              (USB_BUF_CTRL_LAST
                ||| ((read32 s.dpram (ep_buf_ctrl_out_addr ep) ^^^ USB_BUF_CTRL_DATA1_PID)
                      &&& USB_BUF_CTRL_DATA1_PID) ||| DPBUF_SIZE))
            (ep_buf_ctrl_out_addr ep)
            (USB_BUF_CTRL_LAST
                ||| ((read32 s.dpram (ep_buf_ctrl_out_addr ep) ^^^ USB_BUF_CTRL_DATA1_PID)
                      &&& USB_BUF_CTRL_DATA1_PID) ||| DPBUF_SIZE ||| USB_BUF_CTRL_AVAIL)) },
        memcpy_from data
          (write32 s.dpram (ep_buf_ctrl_out_addr ep)
              (USB_BUF_CTRL_LAST
                ||| ((read32 s.dpram (ep_buf_ctrl_out_addr ep) ^^^ USB_BUF_CTRL_DATA1_PID)
                      &&& USB_BUF_CTRL_DATA1_PID) ||| DPBUF_SIZE))
          (usb_buf_offset ep)
          (min (read32 s.dpram (ep_buf_ctrl_out_addr ep) &&& USB_BUF_CTRL_LEN_MASK) max_len),
        toInt32
          (min (read32 s.dpram (ep_buf_ctrl_out_addr ep) &&& USB_BUF_CTRL_LEN_MASK)
            max_len)) := by
  have hmin : (if read32 s.dpram (ep_buf_ctrl_out_addr ep) &&& USB_BUF_CTRL_LEN_MASK > max_len
        then max_len
        else read32 s.dpram (ep_buf_ctrl_out_addr ep) &&& USB_BUF_CTRL_LEN_MASK)
      = min (read32 s.dpram (ep_buf_ctrl_out_addr ep) &&& USB_BUF_CTRL_LEN_MASK) max_len := by
    split <;> omega
  simp only [usb_read_packet, h, ne_eq, not_true_eq_false, if_false, hmin]

/-- C3: `usb_read_packet` reports not-ready and changes nothing unless the OUT
control word has FULL set and AVAILABLE clear; otherwise it returns the LENGTH
field of the word at entry capped to `max_len`, copies that many bytes from
`usb_buf_offset ep`, and leaves LAST, the toggled data toggle, length 64 and
AVAILABLE in the OUT control word, with FULL clear. -/
theorem usb_read_packet_spec (s : State) (ep : Nat) (buf : Mem) (max_len : Nat)
    (hep : ep < USB_NUM_ENDPOINTS) :
    (¬ (read32 s.dpram (ep_buf_ctrl_out_addr ep) &&& USB_BUF_CTRL_FULL ≠ 0
          ∧ read32 s.dpram (ep_buf_ctrl_out_addr ep) &&& USB_BUF_CTRL_AVAIL = 0) →
        usb_read_packet s ep buf max_len = (s, buf, -1))
    ∧ ((read32 s.dpram (ep_buf_ctrl_out_addr ep) &&& USB_BUF_CTRL_FULL ≠ 0
          ∧ read32 s.dpram (ep_buf_ctrl_out_addr ep) &&& USB_BUF_CTRL_AVAIL = 0) →
        (usb_read_packet s ep buf max_len).2.2
            = ((min (read32 s.dpram (ep_buf_ctrl_out_addr ep) &&& USB_BUF_CTRL_LEN_MASK)
                max_len : Nat) : Int)
        ∧ (∀ i, i < min (read32 s.dpram (ep_buf_ctrl_out_addr ep) &&& USB_BUF_CTRL_LEN_MASK)
              max_len →
            (usb_read_packet s ep buf max_len).2.1 i = s.dpram (usb_buf_offset ep + i)
            ∧ (usb_read_packet s ep buf max_len).1.dpram (usb_buf_offset ep + i)
                = s.dpram (usb_buf_offset ep + i))
        ∧ read32 (usb_read_packet s ep buf max_len).1.dpram (ep_buf_ctrl_out_addr ep)
            = USB_BUF_CTRL_LAST
              ||| ((read32 s.dpram (ep_buf_ctrl_out_addr ep) ^^^ USB_BUF_CTRL_DATA1_PID)
                    &&& USB_BUF_CTRL_DATA1_PID)
              ||| DPBUF_SIZE ||| USB_BUF_CTRL_AVAIL
        ∧ read32 (usb_read_packet s ep buf max_len).1.dpram (ep_buf_ctrl_out_addr ep)
            &&& USB_BUF_CTRL_FULL = 0
        ∧ read32 (usb_read_packet s ep buf max_len).1.dpram (ep_buf_ctrl_out_addr ep)
            &&& USB_BUF_CTRL_LEN_MASK = DPBUF_SIZE
        ∧ (read32 (usb_read_packet s ep buf max_len).1.dpram (ep_buf_ctrl_out_addr ep)
              &&& USB_BUF_CTRL_DATA1_PID ≠ 0
            ↔ read32 s.dpram (ep_buf_ctrl_out_addr ep) &&& USB_BUF_CTRL_DATA1_PID = 0)) := by
  constructor
  · intro h
    exact usb_read_packet_of_not_ready s ep buf max_len (fun hg => h ((read_guard_iff _).1 hg))
  · intro h
    have hoff := usb_buf_offset_eq ep hep
    have hep1 : ep < 16 := hep
    obtain ⟨hw, hL, hF, _, _, hD⟩ := out_word_props (read32 s.dpram (ep_buf_ctrl_out_addr ep))
    rw [usb_read_packet_of_ready s ep buf max_len ((read_guard_iff _).2 h)]
    simp only [read32_write32_same, Nat.mod_eq_of_lt hw]
    have hc : min (read32 s.dpram (ep_buf_ctrl_out_addr ep) &&& USB_BUF_CTRL_LEN_MASK) max_len
        ≤ 1023 :=
      le_trans (Nat.min_le_left _ _) Nat.and_le_right
    refine ⟨toInt32_of_lt _ (by omega), ?_, trivial, hF, hL, hD⟩
    intro i hi
    have hx : usb_buf_offset ep + i < ep_buf_ctrl_out_addr ep
        ∨ ep_buf_ctrl_out_addr ep + 4 ≤ usb_buf_offset ep + i := by
      unfold ep_buf_ctrl_out_addr; omega
    constructor
    · simp only [memcpy_from, hi, if_true]
      exact write32_apply_of_not_mem _ _ _ _ hx
    · rw [write32_apply_of_not_mem _ _ _ _ hx, write32_apply_of_not_mem _ _ _ _ hx]

/-! ## Frame facts used by several results -/

/-- Nothing but the packet memory is touched by `usb_write_packet`. -/
theorem usb_write_packet_rest (s : State) (ep : Nat) (data : Mem) (len : Nat) :
    (usb_write_packet s ep data len).1
      = { s with dpram := (usb_write_packet s ep data len).1.dpram } :=
  (usb_write_packet_footprint s ep data len).2

/-- Nothing but the packet memory is touched by `usb_read_packet`. -/
theorem usb_read_packet_rest (s : State) (ep : Nat) (data : Mem) (max_len : Nat) :
    (usb_read_packet s ep data max_len).1
      = { s with dpram := (usb_read_packet s ep data max_len).1.dpram } := by
  by_cases h : read32 s.dpram (ep_buf_ctrl_out_addr ep)
      &&& (USB_BUF_CTRL_AVAIL ||| USB_BUF_CTRL_FULL) = USB_BUF_CTRL_FULL
  · rw [usb_read_packet_of_ready s ep data max_len h]
  · rw [usb_read_packet_of_not_ready s ep data max_len h]

/-- Nothing but the packet memory is touched by `usb_send_ep0`. -/
theorem usb_send_ep0_rest (s : State) (data : Mem) (len : Nat) :
    (usb_send_ep0 s data len).1
      = { s with dpram := (usb_send_ep0 s data len).1.dpram } := by
  unfold usb_send_ep0
  split
  · rfl
  · exact usb_write_packet_rest s 0 data len

/-- Nothing but the packet memory is touched by `usb_read_ep0`. -/
theorem usb_read_ep0_rest (s : State) (data : Mem) (max_len : Nat) :
    (usb_read_ep0 s data max_len).1
      = { s with dpram := (usb_read_ep0 s data max_len).1.dpram } := by
  unfold usb_read_ep0
  split
  · rfl
  · exact usb_read_packet_rest s 0 data max_len

/-- The address latch, the address register and the watchdog register across the
buffer-status branch of the handler. -/
theorem USB_Handler_buff_status_address (t : State) :
    (USB_Handler_buff_status t).set_address
        = (if t.usb_hw.buf_status &&& 3 ≠ 0 ∧ t.usb_hw.buf_status &&& 1 ≠ 0 ∧ t.set_address ≠ 0
            then 0 else t.set_address)
    ∧ (USB_Handler_buff_status t).usb_hw.dev_addr_ctrl
        = (if t.usb_hw.buf_status &&& 3 ≠ 0 ∧ t.usb_hw.buf_status &&& 1 ≠ 0 ∧ t.set_address ≠ 0
            then t.set_address else t.usb_hw.dev_addr_ctrl)
    ∧ (USB_Handler_buff_status t).watchdog_ctrl = t.watchdog_ctrl := by
  unfold USB_Handler_buff_status
  dsimp only
  by_cases h1 : t.usb_hw.buf_status &&& (1 <<< (USB_CDC_EP_BULK_OUT * 2 + 1)) ≠ 0 <;>
  by_cases h2 : t.usb_hw.buf_status &&& (1 <<< (USB_CDC_EP_BULK_IN * 2)) ≠ 0 <;>
  by_cases h3 : t.usb_hw.buf_status &&& 3 ≠ 0 <;>
  by_cases h4 : t.usb_hw.buf_status &&& 1 ≠ 0 <;>
  by_cases h5 : t.set_address ≠ 0 <;>
  simp only [ne_eq, h1, h2, h3, h4, h5, if_true, if_false, and_self, and_true, and_false,
    true_and, false_and, not_true_eq_false, not_false_eq_true, usb_notify_ep0,
    usb_notify_bulk_in, usb_notify_bulk_out]

/-- The address latch, the address register and the watchdog register across a run
of the handler: only the buffer-status branch matters. -/
theorem USB_Handler_address (t : State) :
    (USB_Handler t).set_address
        = (if t.usb_hw.ints &&& USB_INTS_BUFF_STATUS_BITS ≠ 0
            then (USB_Handler_buff_status t).set_address else t.set_address)
    ∧ (USB_Handler t).usb_hw.dev_addr_ctrl
        = (if t.usb_hw.ints &&& USB_INTS_BUFF_STATUS_BITS ≠ 0
            then (USB_Handler_buff_status t).usb_hw.dev_addr_ctrl else t.usb_hw.dev_addr_ctrl)
    ∧ (USB_Handler t).watchdog_ctrl = t.watchdog_ctrl := by
  have hs : ∀ u : State, (USB_Handler_setup_req u).set_address = u.set_address
      ∧ (USB_Handler_setup_req u).usb_hw.dev_addr_ctrl = u.usb_hw.dev_addr_ctrl
      ∧ (USB_Handler_setup_req u).usb_hw.buf_status = u.usb_hw.buf_status
      ∧ (USB_Handler_setup_req u).watchdog_ctrl = u.watchdog_ctrl :=
    fun u => ⟨rfl, rfl, rfl, rfl⟩
  have hr : ∀ u : State, (USB_Handler_bus_reset u).set_address = u.set_address
      ∧ (USB_Handler_bus_reset u).usb_hw.dev_addr_ctrl = u.usb_hw.dev_addr_ctrl
      ∧ (USB_Handler_bus_reset u).watchdog_ctrl = u.watchdog_ctrl :=
    fun u => ⟨rfl, rfl, rfl⟩
  have hb := USB_Handler_buff_status_address
  unfold USB_Handler
  dsimp only
  by_cases h1 : t.usb_hw.ints &&& USB_INTS_SETUP_REQ_BITS ≠ 0 <;>
  by_cases h2 : t.usb_hw.ints &&& USB_INTS_BUFF_STATUS_BITS ≠ 0 <;>
  by_cases h3 : t.usb_hw.ints &&& USB_INTS_BUS_RESET_BITS ≠ 0 <;>
  simp only [ne_eq, h1, h2, h3, if_true, if_false, not_true_eq_false, not_false_eq_true,
    hs, hr, hb, and_self]

/-- Bit 0 of a word set implies that one of its two low bits is set. -/
theorem and_three_of_and_one (x : Nat) (h : x &&& 1 ≠ 0) : x &&& 3 ≠ 0 := by
  have e := Nat.and_pow_two_sub_one_eq_mod x 2
  have e1 : (2 ^ 2 - 1 : Nat) = 3 := by decide
  rw [e1] at e
  rw [Nat.and_one_is_mod] at h
  rw [e]
  omega

/-- C4 (amended): `usb_set_address a` latches `a` and leaves the device-address
register alone; a later run of `USB_Handler` with the latch still `a` writes the
register exactly when it sees a buffer-status interrupt whose bitmap reports the
IN-direction completion of endpoint 0 (bit 0), and then the latch is 0 and the
register is `a`; every other run leaves the register and the latch unchanged. -/
theorem usb_set_address_deferred (a : Nat) (ha : 0 < a) (ha2 : a < 256) (s : State) :
    (usb_set_address s a).set_address = a
    ∧ (usb_set_address s a).usb_hw.dev_addr_ctrl = s.usb_hw.dev_addr_ctrl
    ∧ ∀ t : State, t.set_address = a →
        ((t.usb_hw.ints &&& USB_INTS_BUFF_STATUS_BITS ≠ 0
            ∧ t.usb_hw.buf_status &&& buf_status_in_bit 0 ≠ 0) →
          (USB_Handler t).usb_hw.dev_addr_ctrl = a ∧ (USB_Handler t).set_address = 0)
        ∧ (¬ (t.usb_hw.ints &&& USB_INTS_BUFF_STATUS_BITS ≠ 0
            ∧ t.usb_hw.buf_status &&& buf_status_in_bit 0 ≠ 0) →
          (USB_Handler t).usb_hw.dev_addr_ctrl = t.usb_hw.dev_addr_ctrl
            ∧ (USB_Handler t).set_address = a) := by
  have hbit : buf_status_in_bit 0 = 1 := by decide
  refine ⟨?_, ?_, ?_⟩
  · unfold usb_set_address
    rw [usb_send_ep0_rest]
    exact Nat.mod_eq_of_lt ha2
  · unfold usb_set_address
    rw [usb_send_ep0_rest]
  · intro t ht
    obtain ⟨h1, h2, _⟩ := USB_Handler_address t
    obtain ⟨h3, h4, _⟩ := USB_Handler_buff_status_address t
    have hne : t.set_address ≠ 0 := by omega
    rw [hbit]
    constructor
    · rintro ⟨hi, hb⟩
      have hb3 := and_three_of_and_one _ hb
      rw [h1, h2, if_pos hi, if_pos hi, h3, h4, if_pos ⟨hb3, hb, hne⟩, if_pos ⟨hb3, hb, hne⟩]
      exact ⟨ht, rfl⟩
    · intro hn
      rw [h1, h2]
      by_cases hi : t.usb_hw.ints &&& USB_INTS_BUFF_STATUS_BITS ≠ 0
      · have hb : ¬ (t.usb_hw.buf_status &&& 1 ≠ 0) := fun hb => hn ⟨hi, hb⟩
        rw [if_pos hi, if_pos hi, h3, h4, if_neg (fun hh => hb hh.2.1),
          if_neg (fun hh => hb hh.2.1)]
        exact ⟨rfl, ht⟩
      · rw [if_neg hi, if_neg hi]
        exact ⟨rfl, ht⟩

/-- C4 (as stated, refuted): with address 5 latched, a handler run that reports the
OUT-direction completion of endpoint 0 leaves the latch at 5 and the register
unwritten, and a run that does not report it (only the IN-direction completion)
writes the register and clears the latch. -/
theorem usb_set_address_out_completion_counterexample :
    (state_addr_out.set_address = 5
      ∧ state_addr_out.usb_hw.ints &&& USB_INTS_BUFF_STATUS_BITS ≠ 0
      ∧ state_addr_out.usb_hw.buf_status &&& buf_status_out_bit 0 ≠ 0
      ∧ (USB_Handler state_addr_out).set_address = 5
      ∧ (USB_Handler state_addr_out).usb_hw.dev_addr_ctrl = 0)
    ∧ (state_addr_in.set_address = 5
      ∧ state_addr_in.usb_hw.buf_status &&& buf_status_out_bit 0 = 0
      ∧ state_addr_in.usb_hw.dev_addr_ctrl = 0
      ∧ (USB_Handler state_addr_in).usb_hw.dev_addr_ctrl = 5
      ∧ (USB_Handler state_addr_in).set_address = 0) := by
  decide

/-- Witness of C4 (amended): address 5 on the zero state, then the handler on a
state that reports the IN-direction completion of endpoint 0. -/
theorem usb_set_address_deferred_witness :
    (0 < 5 ∧ 5 < 256)
    ∧ (usb_set_address state0 5).set_address = 5
    ∧ (USB_Handler state_addr_in).usb_hw.dev_addr_ctrl = 5
    ∧ (USB_Handler state_addr_in).set_address = 0 :=
  ⟨by decide, (usb_set_address_deferred 5 (by decide) (by decide) state0).1,
    ((usb_set_address_deferred 5 (by decide) (by decide) state0).2.2 state_addr_in rfl).1
      (by decide)⟩

/-- C5: when the setup-request condition is latched at entry and latched again at
the re-check after the copy, `usb_read_ep0_setup` returns not-ready and raises the
control-endpoint notification; it returns the byte count `max_len` only when the
condition is latched at entry and not latched at the re-check. -/
theorem usb_read_ep0_setup_race (s : State) (intr_recheck : Nat) (buf : Mem)
    (max_len : Nat) :
    ((s.usb_hw.intr &&& USB_INTR_SETUP_REQ_BITS ≠ 0
        ∧ intr_recheck &&& USB_INTR_SETUP_REQ_BITS ≠ 0) →
      (usb_read_ep0_setup s intr_recheck buf max_len).2.2 = -1
      ∧ (usb_read_ep0_setup s intr_recheck buf max_len).1.notify_ep0 = s.notify_ep0 + 1)
    ∧ ((s.usb_hw.intr &&& USB_INTR_SETUP_REQ_BITS ≠ 0
        ∧ intr_recheck &&& USB_INTR_SETUP_REQ_BITS = 0) →
      (usb_read_ep0_setup s intr_recheck buf max_len).2.2 = toInt32 max_len
      ∧ (max_len < 2 ^ 31 →
          (usb_read_ep0_setup s intr_recheck buf max_len).2.2 = (max_len : Int))
      ∧ (usb_read_ep0_setup s intr_recheck buf max_len).1.notify_ep0 = s.notify_ep0)
    ∧ (¬ (s.usb_hw.intr &&& USB_INTR_SETUP_REQ_BITS ≠ 0
        ∧ intr_recheck &&& USB_INTR_SETUP_REQ_BITS = 0) →
      (usb_read_ep0_setup s intr_recheck buf max_len).2.2 = -1) := by
  unfold usb_read_ep0_setup
  dsimp only
  by_cases h1 : s.usb_hw.intr &&& USB_INTR_SETUP_REQ_BITS = 0 <;>
  by_cases h2 : intr_recheck &&& USB_INTR_SETUP_REQ_BITS = 0
  · simp [h1, h2]
  · simp [h1, h2]
  · simp only [ne_eq, h1, h2, if_true, if_false, not_true_eq_false, not_false_eq_true,
      and_self, and_true, and_false, true_and, false_and, true_implies, false_implies]
    exact fun h => toInt32_of_lt max_len h
  · simp [h1, h2, usb_notify_ep0]

/-- Witness of C5: a setup packet is pending at entry and a new one is latched at
the re-check. -/
theorem usb_read_ep0_setup_race_witness :
    (state_setup.usb_hw.intr &&& USB_INTR_SETUP_REQ_BITS ≠ 0
      ∧ USB_INTR_SETUP_REQ_BITS &&& USB_INTR_SETUP_REQ_BITS ≠ 0)
    ∧ (usb_read_ep0_setup state_setup USB_INTR_SETUP_REQ_BITS NULL 8).2.2 = -1
    ∧ (usb_read_ep0_setup state_setup USB_INTR_SETUP_REQ_BITS NULL 8).1.notify_ep0
        = state_setup.notify_ep0 + 1 :=
  ⟨by decide,
    (usb_read_ep0_setup_race state_setup USB_INTR_SETUP_REQ_BITS NULL 8).1 (by decide)⟩

/-- C6: with a setup request pending at call time `usb_send_ep0` and
`usb_read_ep0` return early-termination (-2) and leave the whole state, hence
the control words and packet memory of endpoint 0, unchanged; `usb_send_ep0` does
the same whenever bit 1 of the pending buffer status is set. -/
theorem usb_ep0_early_termination (s : State) (data : Mem) (n : Nat) :
    (s.usb_hw.intr &&& USB_INTR_SETUP_REQ_BITS ≠ 0 →
      usb_send_ep0 s data n = (s, -2) ∧ usb_read_ep0 s data n = (s, data, -2))
    ∧ (s.usb_hw.buf_status &&& 2 ≠ 0 → usb_send_ep0 s data n = (s, -2))
    ∧ ((-2 : Int) ≠ -1) := by
  refine ⟨?_, ?_, by decide⟩
  · intro h
    simp [usb_send_ep0, usb_read_ep0, h]
  · intro h
    simp [usb_send_ep0, h]

/-- Witness of C6: a setup packet is pending. -/
theorem usb_ep0_early_termination_witness :
    state_setup.usb_hw.intr &&& USB_INTR_SETUP_REQ_BITS ≠ 0
    ∧ usb_send_ep0 state_setup payload 4 = (state_setup, -2)
    ∧ usb_read_ep0 state_setup NULL 64 = (state_setup, NULL, -2) :=
  ⟨by decide, (usb_ep0_early_termination state_setup payload 4).1 (by decide) |>.1,
    (usb_ep0_early_termination state_setup NULL 64).1 (by decide) |>.2⟩

/-- The busy wait ends once some timer read is not before the end time. -/
theorem wait_1ms_terminates (env : Env) (endtime : Nat) :
    ∀ k start fuel,
      env.timer_is_before (env.timer_read_time (start + k)) endtime = false →
      k < fuel → ∃ kt, wait_1ms env endtime fuel start = some kt := by
  intro k
  induction k with
  | zero =>
    intro start fuel h hf
    obtain ⟨f, rfl⟩ : ∃ f, fuel = f + 1 := ⟨fuel - 1, by omega⟩
    rw [Nat.add_zero] at h
    exact ⟨start + 1, by simp [wait_1ms, h]⟩
  | succ k ih =>
    intro start fuel h hf
    obtain ⟨f, rfl⟩ : ∃ f, fuel = f + 1 := ⟨fuel - 1, by omega⟩
    by_cases hb : env.timer_is_before (env.timer_read_time start) endtime = true
    · obtain ⟨kt, hkt⟩ := ih (start + 1) f (by rw [← h]; congr 2; omega) (by omega)
      exact ⟨kt, by simp [wait_1ms, hb, hkt]⟩
    · exact ⟨start + 1, by simp [wait_1ms, hb]⟩

/-- The poll for the connected state ends once some timer read is past the end time. -/
theorem wait_connected_terminates (env : Env) (endtime : Nat) :
    ∀ j kt ks fuel,
      env.timer_is_before endtime (env.timer_read_time (kt + j)) = true →
      j < fuel → ∃ b, wait_connected env endtime fuel kt ks = some b := by
  intro j
  induction j with
  | zero =>
    intro kt ks fuel h hf
    obtain ⟨f, rfl⟩ : ∃ f, fuel = f + 1 := ⟨fuel - 1, by omega⟩
    rw [Nat.add_zero] at h
    by_cases hc : env.sie_status ks &&& USB_SIE_STATUS_CONNECTED_BITS ≠ 0
    · exact ⟨true, by simp [wait_connected, hc]⟩
    · exact ⟨false, by simp [wait_connected, hc, h]⟩
  | succ j ih =>
    intro kt ks fuel h hf
    obtain ⟨f, rfl⟩ : ∃ f, fuel = f + 1 := ⟨fuel - 1, by omega⟩
    by_cases hc : env.sie_status ks &&& USB_SIE_STATUS_CONNECTED_BITS ≠ 0
    · exact ⟨true, by simp [wait_connected, hc]⟩
    · by_cases hb : env.timer_is_before endtime (env.timer_read_time kt) = true
      · exact ⟨false, by simp [wait_connected, hc, hb]⟩
      · obtain ⟨b, hb2⟩ := ih (kt + 1) (ks + 1) f (by rw [← h]; congr 2; omega) (by omega)
        exact ⟨b, by simp [wait_connected, hc, hb, hb2]⟩

/-- More fuel does not change the result of the busy wait. -/
theorem wait_1ms_mono (env : Env) (endtime : Nat) :
    ∀ fuel start kt, wait_1ms env endtime fuel start = some kt →
      ∀ fuel2, fuel ≤ fuel2 → wait_1ms env endtime fuel2 start = some kt := by
  intro fuel
  induction fuel with
  | zero => intro start kt h; simp [wait_1ms] at h
  | succ f ih =>
    intro start kt h fuel2 hle
    obtain ⟨g, rfl⟩ : ∃ g, fuel2 = g + 1 := ⟨fuel2 - 1, by omega⟩
    unfold wait_1ms at h ⊢
    split
    · rename_i hb
      rw [if_pos hb] at h
      exact ih _ _ h g (by omega)
    · rename_i hb
      rw [if_neg hb] at h
      exact h

/-- Clearing bits through the clear alias leaves them clear. -/
theorem hw_clear_alias_and (reg bits : Nat) : hw_clear_alias reg bits &&& bits = 0 := by
  apply Nat.eq_of_testBit_eq
  intro i
  simp only [hw_clear_alias, Nat.testBit_and, Nat.testBit_xor, Nat.zero_testBit]
  cases reg.testBit i <;> cases bits.testBit i <;> rfl

/-- Whatever the two loops observe, a finished workaround has restored the GPIO15
registers, switched the multiplexer back and cleared the pull-up override. -/
theorem usb_errata_workaround_restores (env : Env) (fuel : Nat) (s s2 : State)
    (h : usb_errata_workaround env fuel s = some s2) :
    s2.gpio15_ctrl = s.gpio15_ctrl ∧ s2.pad15_ctrl = s.pad15_ctrl
    ∧ s2.usb_hw.muxing = USB_USB_MUXING_TO_PHY_BITS ||| USB_USB_MUXING_SOFTCON_BITS
    ∧ s2.usb_hw.phy_direct_override
        &&& USB_USBPHY_DIRECT_OVERRIDE_DP_PULLUP_EN_OVERRIDE_EN_BITS = 0
    ∧ s2.watchdog_ctrl = s.watchdog_ctrl := by
  unfold usb_errata_workaround at h
  simp only at h
  split at h
  · exact absurd h (by simp)
  · split at h
    · exact absurd h (by simp)
    · injection h with h
      subst h
      exact ⟨rfl, rfl, rfl, hw_clear_alias_and _ _, rfl⟩

/-- The workaround returns once both loops return. -/
theorem usb_errata_workaround_returns (env : Env) (fuel : Nat) (s : State) (kt : Nat)
    (b : Bool)
    (h1 : wait_1ms env ((env.timer_read_time 0 + env.timer_from_us 1000) % 2 ^ 32) fuel 1
      = some kt)
    (h2 : wait_connected env
        (((env.timer_read_time 0 + env.timer_from_us 1000) % 2 ^ 32
          + env.timer_from_us 1000) % 2 ^ 32) fuel kt 2 = some b) :
    ∃ s2, usb_errata_workaround env fuel s = some s2 := by
  unfold usb_errata_workaround
  simp only [h1, h2]
  exact ⟨_, rfl⟩

/-- C7: a woken errata task that finds the bus not connected and the line state
settled returns (given a timer that advances past both end times) and on return
the GPIO15 control and pad registers hold their values from entry, the multiplexer
is on the analog PHY and the pull-up override-enable bit is clear; no assumption is
made on the connected state during the poll, so the timeout path is covered. -/
theorem usb_errata_task_restores (env : Env) (s : State)
    (hwake : s.usb_errata_wake = true)
    (hnc : env.sie_status 0 &&& USB_SIE_STATUS_CONNECTED_BITS = 0)
    (hline : env.sie_status 1 &&& USB_SIE_STATUS_LINE_STATE_BITS ≠ 0)
    (ht1 : ∃ k, env.timer_is_before (env.timer_read_time (1 + k))
        ((env.timer_read_time 0 + env.timer_from_us 1000) % 2 ^ 32) = false)
    (ht2 : ∀ kt, ∃ j, env.timer_is_before
        (((env.timer_read_time 0 + env.timer_from_us 1000) % 2 ^ 32
          + env.timer_from_us 1000) % 2 ^ 32) (env.timer_read_time (kt + j)) = true) :
    (∃ fuel s2, usb_errata_task env fuel s = some s2)
    ∧ ∀ fuel s2, usb_errata_task env fuel s = some s2 →
        s2.gpio15_ctrl = s.gpio15_ctrl ∧ s2.pad15_ctrl = s.pad15_ctrl
        ∧ s2.usb_hw.muxing = USB_USB_MUXING_TO_PHY_BITS ||| USB_USB_MUXING_SOFTCON_BITS
        ∧ s2.usb_hw.muxing &&& USB_USB_MUXING_TO_PHY_BITS ≠ 0
        ∧ s2.usb_hw.muxing &&& USB_USB_MUXING_TO_DIGITAL_PAD_BITS = 0
        ∧ s2.usb_hw.phy_direct_override
            &&& USB_USBPHY_DIRECT_OVERRIDE_DP_PULLUP_EN_OVERRIDE_EN_BITS = 0 := by
  have htask : ∀ fuel, usb_errata_task env fuel s
      = usb_errata_workaround env fuel { s with usb_errata_wake := false } := by
    intro fuel
    unfold usb_errata_task
    simp [hwake, hnc, hline]
  constructor
  · obtain ⟨k, hk⟩ := ht1
    obtain ⟨kt, hkt⟩ := wait_1ms_terminates env _ k 1 (k + 1) hk (by omega)
    obtain ⟨j, hj⟩ := ht2 kt
    obtain ⟨b, hb⟩ := wait_connected_terminates env _ j kt 2 (k + 1 + j + 1) hj (by omega)
    have hkt2 := wait_1ms_mono env _ _ _ _ hkt (k + 1 + j + 1) (by omega)
    obtain ⟨s2, hs2⟩ := usb_errata_workaround_returns env (k + 1 + j + 1)
      { s with usb_errata_wake := false } kt b hkt2 hb
    exact ⟨k + 1 + j + 1, s2, by rw [htask]; exact hs2⟩
  · intro fuel s2 h
    rw [htask] at h
    obtain ⟨h1, h2, h3, h4, _⟩ := usb_errata_workaround_restores env fuel _ s2 h
    refine ⟨h1, h2, h3, ?_, ?_, h4⟩
    · rw [h3]; decide
    · rw [h3]; decide

/-- Witness of C7: the bus never reports the connected state, so the poll ends on
the timeout, and the GPIO15 registers are back at their values from entry. -/
theorem usb_errata_task_restores_witness :
    (state_woken.usb_errata_wake = true
      ∧ (∀ k, env_timeout.sie_status k &&& USB_SIE_STATUS_CONNECTED_BITS = 0)
      ∧ env_timeout.sie_status 1 &&& USB_SIE_STATUS_LINE_STATE_BITS ≠ 0)
    ∧ (∃ fuel s2, usb_errata_task env_timeout fuel state_woken = some s2)
    ∧ ∀ fuel s2, usb_errata_task env_timeout fuel state_woken = some s2 →
        s2.gpio15_ctrl = state_woken.gpio15_ctrl ∧ s2.pad15_ctrl = state_woken.pad15_ctrl
        ∧ s2.usb_hw.muxing = USB_USB_MUXING_TO_PHY_BITS ||| USB_USB_MUXING_SOFTCON_BITS
        ∧ s2.usb_hw.muxing &&& USB_USB_MUXING_TO_PHY_BITS ≠ 0
        ∧ s2.usb_hw.muxing &&& USB_USB_MUXING_TO_DIGITAL_PAD_BITS = 0
        ∧ s2.usb_hw.phy_direct_override
            &&& USB_USBPHY_DIRECT_OVERRIDE_DP_PULLUP_EN_OVERRIDE_EN_BITS = 0 :=
  ⟨⟨rfl, fun _ => by
      show (0x4 : Nat) &&& USB_SIE_STATUS_CONNECTED_BITS = 0
      decide, by decide⟩,
    usb_errata_task_restores env_timeout state_woken rfl (by decide) (by decide)
      ⟨0, by decide⟩
      (fun kt => ⟨3, by
        have h : env_timeout.timer_read_time (kt + 3) = 60000 := by
          have h3 : min (kt + 3) 3 = 3 := by omega
          simp [env_timeout, h3]
        rw [h]; decide⟩)⟩

/-! ## The watchdog register -/

/-- The watchdog register is never written by `usb_errata_task`. -/
theorem usb_errata_task_watchdog (env : Env) (fuel : Nat) (s s2 : State)
    (h : usb_errata_task env fuel s = some s2) : s2.watchdog_ctrl = s.watchdog_ctrl := by
  unfold usb_errata_task at h
  split at h
  · injection h with h; rw [← h]
  · dsimp only at h
    split at h
    · injection h with h; rw [← h]
    · split at h
      · injection h with h; rw [← h]; rfl
      · exact (usb_errata_workaround_restores env fuel _ s2 h).2.2.2.2

/-- C9 (amended): the packet primitives, the control-endpoint operations,
`usb_set_address`, `usb_set_configure`, `USB_Handler`, `usb_errata_task` and
`usbserial_init` leave the watchdog control register unchanged in every state;
`usb_reset` leaves the state unchanged when the bus is connected and, when the bus
is not connected, stores `0x80000000` in the watchdog control register. -/
theorem watchdog_ctrl_writers (s : State) (ep : Nat) (data : Mem) (n : Nat)
    (intr_recheck addr chip_id : Nat) (env : Env) (fuel : Nat) :
    (usb_write_packet s ep data n).1.watchdog_ctrl = s.watchdog_ctrl
    ∧ (usb_read_packet s ep data n).1.watchdog_ctrl = s.watchdog_ctrl
    ∧ (usb_send_bulk_in s data n).1.watchdog_ctrl = s.watchdog_ctrl
    ∧ (usb_read_bulk_out s data n).1.watchdog_ctrl = s.watchdog_ctrl
    ∧ (usb_read_ep0_setup s intr_recheck data n).1.watchdog_ctrl = s.watchdog_ctrl
    ∧ (usb_read_ep0 s data n).1.watchdog_ctrl = s.watchdog_ctrl
    ∧ (usb_send_ep0 s data n).1.watchdog_ctrl = s.watchdog_ctrl
    ∧ (usb_stall_ep0 s).watchdog_ctrl = s.watchdog_ctrl
    ∧ (usb_set_address s addr).watchdog_ctrl = s.watchdog_ctrl
    ∧ (usb_set_configure s).watchdog_ctrl = s.watchdog_ctrl
    ∧ (USB_Handler s).watchdog_ctrl = s.watchdog_ctrl
    ∧ (usbserial_init chip_id s).watchdog_ctrl = s.watchdog_ctrl
    ∧ (∀ s2, usb_errata_task env fuel s = some s2 → s2.watchdog_ctrl = s.watchdog_ctrl)
    ∧ (s.usb_hw.sie_status &&& USB_SIE_STATUS_CONNECTED_BITS ≠ 0 → usb_reset s = s)
    ∧ (s.usb_hw.sie_status &&& USB_SIE_STATUS_CONNECTED_BITS = 0 →
        (usb_reset s).watchdog_ctrl = 0x80000000) := by
  refine ⟨?_, ?_, ?_, ?_, ?_, ?_, ?_, ?_, ?_, ?_, ?_, ?_, ?_, ?_, ?_⟩
  · rw [usb_write_packet_rest]
  · rw [usb_read_packet_rest]
  · unfold usb_send_bulk_in; rw [usb_write_packet_rest]
  · unfold usb_read_bulk_out; rw [usb_read_packet_rest]
  · unfold usb_read_ep0_setup
    dsimp only
    split
    · rfl
    · split <;> rfl
  · rw [usb_read_ep0_rest]
  · rw [usb_send_ep0_rest]
  · rfl
  · unfold usb_set_address; rw [usb_send_ep0_rest]
  · rfl
  · exact (USB_Handler_address s).2.2
  · rfl
  · exact fun s2 h => usb_errata_task_watchdog env fuel s s2 h
  · intro h; simp [usb_reset, h]
  · intro h; simp [usb_reset, h]

/-- C9 (as stated, refuted): on the zero state the bus is not connected and
`usb_reset` changes the watchdog control register, setting its reset trigger bit. -/
theorem usb_reset_watchdog_counterexample :
    state0.usb_hw.sie_status &&& USB_SIE_STATUS_CONNECTED_BITS = 0
    ∧ state0.watchdog_ctrl = 0
    ∧ (usb_reset state0).watchdog_ctrl = 0x80000000
    ∧ (usb_reset state0).watchdog_ctrl ≠ state0.watchdog_ctrl := by
  decide

/-- Witness of C9 (amended): the handler on a state with a pending completion, and
`usb_reset` on the zero state. -/
theorem watchdog_ctrl_writers_witness :
    (USB_Handler state_addr_in).watchdog_ctrl = state_addr_in.watchdog_ctrl
    ∧ (usb_reset state0).watchdog_ctrl = 0x80000000 :=
  ⟨(watchdog_ctrl_writers state_addr_in 0 NULL 0 0 0 0 env_timeout 0).2.2.2.2.2.2.2.2.2.2.1,
    (watchdog_ctrl_writers state0 0 NULL 0 0 0 0 env_timeout 0).2.2.2.2.2.2.2.2.2.2.2.2.2.2
      (by decide)⟩

/-! ## Witnesses of the packet results -/

/-- Witness of C1: four bytes written to the bulk-IN endpoint of the zero state. -/
theorem usb_write_packet_observed_witness :
    (USB_CDC_EP_BULK_IN < USB_NUM_ENDPOINTS ∧ 4 ≤ DPBUF_SIZE
      ∧ read32 state0.dpram (ep_buf_ctrl_in_addr USB_CDC_EP_BULK_IN)
          &&& USB_BUF_CTRL_AVAIL = 0
      ∧ read32 state0.dpram (ep_buf_ctrl_in_addr USB_CDC_EP_BULK_IN)
          &&& USB_BUF_CTRL_FULL = 0)
    ∧ (usb_write_packet state0 USB_CDC_EP_BULK_IN payload 4).2 = ((4 : Nat) : Int)
    ∧ (∀ i, i < 4 →
        (usb_write_packet state0 USB_CDC_EP_BULK_IN payload 4).1.dpram
          (usb_buf_offset USB_CDC_EP_BULK_IN + i) = payload i) :=
  ⟨by decide,
    (usb_write_packet_observed state0 USB_CDC_EP_BULK_IN payload 4 (by decide) (by decide)
      (by decide) (by decide)).1,
    (usb_write_packet_observed state0 USB_CDC_EP_BULK_IN payload 4 (by decide) (by decide)
      (by decide) (by decide)).2.1⟩

/-- Witness of C2: two writes in a row on the bulk-IN endpoint of the zero state. -/
theorem usb_write_packet_twice_witness :
    (read32 state0.dpram (ep_buf_ctrl_in_addr USB_CDC_EP_BULK_IN)
        &&& USB_BUF_CTRL_AVAIL = 0
      ∧ read32 state0.dpram (ep_buf_ctrl_in_addr USB_CDC_EP_BULK_IN)
        &&& USB_BUF_CTRL_FULL = 0)
    ∧ usb_write_packet (usb_write_packet state0 USB_CDC_EP_BULK_IN payload 4).1
        USB_CDC_EP_BULK_IN NULL 2
      = ((usb_write_packet state0 USB_CDC_EP_BULK_IN payload 4).1, -1) :=
  ⟨by decide,
    (usb_write_packet_twice state0 USB_CDC_EP_BULK_IN payload 4 NULL 2 (by decide)
      (by decide)).2⟩

/-- Witness of C3: a five byte packet waits in the bulk-OUT buffer and is read into a
buffer of 64 bytes. -/
theorem usb_read_packet_spec_witness :
    (USB_CDC_EP_BULK_OUT < USB_NUM_ENDPOINTS
      ∧ read32 state_rx.dpram (ep_buf_ctrl_out_addr USB_CDC_EP_BULK_OUT)
          &&& USB_BUF_CTRL_FULL ≠ 0
      ∧ read32 state_rx.dpram (ep_buf_ctrl_out_addr USB_CDC_EP_BULK_OUT)
          &&& USB_BUF_CTRL_AVAIL = 0)
    ∧ (usb_read_packet state_rx USB_CDC_EP_BULK_OUT NULL 64).2.2
        = ((min (read32 state_rx.dpram (ep_buf_ctrl_out_addr USB_CDC_EP_BULK_OUT)
              &&& USB_BUF_CTRL_LEN_MASK) 64 : Nat) : Int)
    ∧ (usb_read_packet state_rx USB_CDC_EP_BULK_OUT NULL 64).2.2 = 5 :=
  ⟨by decide,
    ((usb_read_packet_spec state_rx USB_CDC_EP_BULK_OUT NULL 64 (by decide)).2
      (by decide)).1,
    by decide⟩

/-- Witness of C10: four bytes written to the bulk-IN endpoint leave the control
words of the bulk-OUT endpoint alone. -/
theorem usb_write_packet_frame_witness :
    (USB_CDC_EP_BULK_IN < USB_NUM_ENDPOINTS ∧ 4 ≤ DPBUF_SIZE)
    ∧ usb_buf_offset USB_CDC_EP_BULK_IN = 0x100 + 128 * USB_CDC_EP_BULK_IN
    ∧ usb_buf_offset USB_CDC_EP_BULK_IN + 4 ≤ USB_DPRAM_SIZE
    ∧ read32 (usb_write_packet state_rx USB_CDC_EP_BULK_IN payload 4).1.dpram
          (ep_buf_ctrl_out_addr USB_CDC_EP_BULK_IN)
        = read32 state_rx.dpram (ep_buf_ctrl_out_addr USB_CDC_EP_BULK_IN) :=
  ⟨by decide,
    (usb_write_packet_frame state_rx USB_CDC_EP_BULK_IN payload 4 (by decide)
      (by decide)).1,
    (usb_write_packet_frame state_rx USB_CDC_EP_BULK_IN payload 4 (by decide)
      (by decide)).2.2.1,
    (usb_write_packet_frame state_rx USB_CDC_EP_BULK_IN payload 4 (by decide)
      (by decide)).2.2.2.2.2.2.1⟩

end Usbserial
